import Mathlib

/-
Verification development for the HBD local-business chatbot.

The Python sources (app.py, business/business_by_phone.py,
business/business_update.py, business/business_add.py,
business/business_utils.py) are shallowly embedded below.  Strings are
modelled as lists of characters (`Str`), the SQLite listings table as a
`List Listing` (each row carrying its `rowid`), and the Streamlit session
state as an explicit `ChatState` record threaded through the handlers.
Python string primitives (`lower`, `strip`, `split`, `replace`, `in`,
`title`) and `difflib` similarity scoring are reimplemented over `Str`
with executable structural recursion so that concrete runs evaluate by
`decide`.  Floating-point ratios are modelled as exact rationals; the
claims settled here do not hinge on float rounding.
-/

/-- Strings of the embedded program: lists of characters. -/
abbrev Str := List Char

/-- Python str.lower (ASCII, as used by the sources). -/
def lowerStr (s : Str) : Str := s.map Char.toLower

/-- Drop leading whitespace characters. -/
def dropLeadWs : Str → Str
  | [] => []
  | c :: cs => if c.isWhitespace then dropLeadWs cs else c :: cs

/-- Python str.strip(): remove leading and trailing whitespace. -/
def trimStr (s : Str) : Str := ((dropLeadWs ((dropLeadWs s).reverse)).reverse)

/-- Helper for `splitWs`: accumulates the current (reversed) word. -/
def splitWsAux : Str → Str → List Str
  | [], acc => if acc.isEmpty then [] else [acc.reverse]
  | c :: cs, acc =>
    if c.isWhitespace then
      (if acc.isEmpty then splitWsAux cs [] else acc.reverse :: splitWsAux cs [])
    else splitWsAux cs (c :: acc)

/-- Python str.split() with no argument: split on whitespace runs, no empty parts. -/
def splitWs (s : Str) : List Str := splitWsAux s []

/-- Python " ".join(words). -/
def joinSpace : List Str → Str
  | [] => []
  | [w] => w
  | w :: ws => w ++ (' ' :: joinSpace ws)

/-- Does `s` start with `p`? (Python str.startswith). -/
def startsWithStr : Str → Str → Bool
  | _, [] => true
  | [], _ :: _ => false
  | a :: as, b :: bs => a = b && startsWithStr as bs

/-- Does `s` end with `p`? (Python str.endswith). -/
def endsWithStr (s p : Str) : Bool := startsWithStr s.reverse p.reverse

/-- Python substring containment: `sub in s`. -/
def containsStr : Str → Str → Bool
  | [], sub => sub.isEmpty
  | c :: rest, sub => startsWithStr (c :: rest) sub || containsStr rest sub

/-- Fuelled worker for `replaceAll`; the fuel bounds the number of consumed
characters of the subject string. -/
def replaceAllF : Nat → Str → Str → Str → Str
  | 0, s, _, _ => s
  | _ + 1, [], _, _ => []
  | fuel + 1, c :: rest, old, new =>
    if (!old.isEmpty) && startsWithStr (c :: rest) old then
      new ++ replaceAllF fuel ((c :: rest).drop old.length) old new
    else c :: replaceAllF fuel rest old new

/-- Python str.replace(old, new): replace every non-overlapping occurrence,
left to right.  (The sources only call it with non-empty `old`.) -/
def replaceAll (s old new : Str) : Str := replaceAllF s.length s old new

/-- Helper for `titleStr`: the flag records whether the previous character
was alphabetic. -/
def titleAux : Bool → Str → Str
  | _, [] => []
  | prevAlpha, c :: cs =>
    if c.isAlpha then (if prevAlpha then c.toLower else c.toUpper) :: titleAux true cs
    else c :: titleAux false cs

/-- Python str.title() restricted to ASCII letters, as the sources use it. -/
def titleStr (s : Str) : Str := titleAux false s

/-- Strict lexicographic order on `Str`, matching Python string comparison
by code point. -/
def strLtB : Str → Str → Bool
  | [], [] => false
  | [], _ :: _ => true
  | _ :: _, [] => false
  | a :: as, b :: bs => if a < b then true else if b < a then false else strLtB as bs

/-- business/business_utils.py normalize_phone: keep only digit characters. -/
def normalize_phone (phone : Str) : Str := phone.filter Char.isDigit

/-- A row of the google_maps_listings table.  `rowid` is the SQLite rowid
(equal to the INTEGER PRIMARY KEY `id` for rows created by this program).
`reviews_average` is NULLable; timestamps are stored as strings. -/
structure Listing where
  rowid : Int
  id : Int
  name : Str
  address : Str
  website : Str
  phone_number : Str
  reviews_count : Int
  reviews_average : Option ℚ
  category : Str
  subcategory : Str
  city : Str
  state : Str
  area : Str
  created_at : Str
deriving DecidableEq, Repr

/-- The listings store: the rows of google_maps_listings in table order. -/
abbrev Store := List Listing

/-- Stable descending insertion: `x` is placed before the first element it
is not strictly below, so equal-key elements keep their original order.
This is the semantics of Python list.sort(key=…, reverse=True). -/
def insertDesc (lt : α → α → Bool) (x : α) : List α → List α
  | [] => [x]
  | y :: ys => if lt x y then y :: insertDesc lt x ys else x :: y :: ys

/-- Stable descending sort (Python list.sort(key=…, reverse=True)). -/
def sortDesc (lt : α → α → Bool) : List α → List α
  | [] => []
  | x :: xs => insertDesc lt x (sortDesc lt xs)

/-- Sort key of business_by_phone.py: strict descending comparison on the
created_at string (Python list.sort(key=created_at, reverse=True)). -/
def createdLt (a b : Listing) : Bool := strLtB a.created_at b.created_at

/-- business/business_by_phone.py get_businesses_by_phone: normalize the
query phone, return [] if it has no digits, otherwise keep exactly the rows
whose stored phone number has the same digit-only projection and sort them
by created_at descending (stable, most recent first). -/
def get_businesses_by_phone (phone : Str) (store : Store) : List Listing :=
  let np := normalize_phone phone
  if np = [] then []
  else sortDesc createdLt (store.filter (fun r => normalize_phone r.phone_number == np))

/-- business/business_update.py ALLOWED_FIELDS: the update allow-list. -/
def ALLOWED_FIELDS : List Str :=
  [("name".toList), ("address".toList), ("phone_number".toList), ("website".toList),
   ("category".toList), ("subcategory".toList), ("area".toList), ("city".toList),
   ("state".toList)]

/-- Set one listing column by name (the SQL SET clause of update_business). -/
def applyField (k v : Str) (r : Listing) : Listing :=
  if k = ("name".toList) then { r with name := v }
  else if k = ("address".toList) then { r with address := v }
  else if k = ("phone_number".toList) then { r with phone_number := v }
  else if k = ("website".toList) then { r with website := v }
  else if k = ("category".toList) then { r with category := v }
  else if k = ("subcategory".toList) then { r with subcategory := v }
  else if k = ("area".toList) then { r with area := v }
  else if k = ("city".toList) then { r with city := v }
  else if k = ("state".toList) then { r with state := v }
  else r

/-- Apply all filtered (column, value) pairs to a row. -/
def applyUpdates (fs : List (Str × Str)) (r : Listing) : Listing :=
  fs.foldl (fun acc kv => applyField kv.1 kv.2 acc) r

/-- business_update.py: keep only allow-listed keys; None becomes the empty
string, strings are stripped, and phone_number values are normalized. -/
def filterUpdates : List (Str × Option Str) → List (Str × Str)
  | [] => []
  | (k, v) :: rest =>
    if k ∈ ALLOWED_FIELDS then
      (k, match v with
          | none => []
          | some s =>
            if k = ("phone_number".toList) then normalize_phone (trimStr s) else trimStr s)
        :: filterUpdates rest
    else filterUpdates rest

/-- business_update.py record matching, by id: first row whose id equals the
given business_id, else first row whose rowid equals it. -/
def ubById (store : Store) (business_id : Option Int) : List Int :=
  match business_id with
  | some bid =>
    match store.find? (fun r => r.id == bid) with
    | some r => [r.rowid]
    | none =>
      match store.find? (fun r => r.rowid == bid) with
      | some r => [r.rowid]
      | none => []
  | none => []

/-- business_update.py record matching, by phone: all rows whose stored phone
number normalizes to the same digit string as the given one. -/
def ubByPhone (store : Store) (phone_number : Option Str) : List Int :=
  match phone_number with
  | some p =>
    if p ≠ [] ∧ normalize_phone p ≠ [] then
      (store.filter (fun r => normalize_phone r.phone_number == normalize_phone p)).map
        (fun r => r.rowid)
    else []
  | none => []

/-- business_update.py: match by id first, falling back to phone number. -/
def ubMatching (store : Store) (business_id : Option Int) (phone_number : Option Str) :
    List Int :=
  if ubById store business_id = [] then ubByPhone store phone_number
  else ubById store business_id

/-- business/business_update.py update_business: returns a success flag and
the (possibly updated) table.  Failure paths return before any write. -/
def update_business (store : Store) (business_id : Option Int)
    (updates : Option (List (Str × Option Str))) (phone_number : Option Str) :
    Bool × Store :=
  match updates with
  | none => (false, store)
  | some ups =>
    if ups = [] then (false, store)
    else if filterUpdates ups = [] then (false, store)
    else if ubMatching store business_id phone_number = [] then (false, store)
    else
      (decide (0 < (store.filter
          (fun r => decide (r.rowid ∈ ubMatching store business_id phone_number))).length),
       store.map (fun r =>
         if decide (r.rowid ∈ ubMatching store business_id phone_number) then
           applyUpdates (filterUpdates ups) r
         else r))

/-- Sample row: listing with phone "98733 12399", created 2024-01-02. -/
def sampleL1 : Listing :=
  ⟨1, 1, ("alpha".toList), ("1 main st".toList), [], ("98733 12399".toList), 3, none,
   ("cafe".toList), [], ("pune".toList), [], [], ("2024-01-02 00:00:00".toList)⟩

/-- Sample row: listing with phone "9873312399", created 2024-01-01. -/
def sampleL2 : Listing :=
  ⟨2, 2, ("beta".toList), ("2 main st".toList), [], ("9873312399".toList), 1, none,
   ("salon".toList), [], ("pune".toList), [], [], ("2024-01-01 00:00:00".toList)⟩

/-- Sample row: listing whose stored phone has no digits at all. -/
def sampleL3 : Listing :=
  ⟨3, 3, ("gamma".toList), ("3 main st".toList), [], ("---".toList), 0, none,
   ("store".toList), [], ("pune".toList), [], [], ("2024-01-03 00:00:00".toList)⟩

/-- Length of the common run at the heads of two strings. -/
def commonRunLen : Str → Str → Nat
  | a :: as, b :: bs => if a = b then commonRunLen as bs + 1 else 0
  | _, _ => 0

/-- difflib SequenceMatcher.find_longest_match (no junk, short sequences):
the longest common contiguous block, tie-broken by earliest start in `a`,
then earliest start in `b`.  Returns (i, j, size). -/
def findLongestMatch (a b : Str) : Nat × Nat × Nat :=
  (List.range a.length).foldl (fun best i =>
    (List.range b.length).foldl (fun best j =>
      let k := commonRunLen (a.drop i) (b.drop j)
      if best.2.2 < k then (i, j, k) else best) best) (0, 0, 0)

/-- Total size of difflib's matching blocks: recursively take the longest
match and recurse on the pieces to its left and right.  The fuel bounds the
recursion by the total remaining length. -/
def matchTotal : Nat → Str → Str → Nat
  | 0, _, _ => 0
  | fuel + 1, a, b =>
    let m := findLongestMatch a b
    if m.2.2 = 0 then 0
    else
      matchTotal fuel (a.take m.1) (b.take m.2.1) + m.2.2 +
        matchTotal fuel (a.drop (m.1 + m.2.2)) (b.drop (m.2.1 + m.2.2))

/-- difflib SequenceMatcher.ratio() represented exactly as a fraction: the
pair (numerator, denominator) of 2M/T, and 1/1 when both sequences are empty
(floating point is modelled by exact rational arithmetic; the cutoff 0.6 is
the exact rational 3/5 and no claim hinges on float rounding). -/
def ratioFrac (a b : Str) : Nat × Nat :=
  if a.length + b.length = 0 then (1, 1)
  else (2 * matchTotal (a.length + b.length) a b, a.length + b.length)

/-- Exact comparison cutoff ≤ ratio by cross-multiplication. -/
def cutoffLeRatio (tn td : Nat) (r : Nat × Nat) : Bool :=
  decide (tn * r.2 ≤ td * r.1)

/-- Comparison used by difflib get_close_matches to pick the best scored
candidates: heapq.nlargest on (ratio, term) pairs, i.e. descending by ratio
and, on equal ratios, by the larger term string.  Ratios are compared by
cross-multiplication of their exact fractions. -/
def scoredLt (a b : (Nat × Nat) × Str) : Bool :=
  decide (a.1.1 * b.1.2 < b.1.1 * a.1.2) ||
  (decide (a.1.1 * b.1.2 = b.1.1 * a.1.2) && strLtB a.2 b.2)

/-- difflib.get_close_matches(word, possibilities, n, cutoff = tn/td):
candidates whose ratio against `word` reaches the cutoff, best n first.  The
sequence matcher scores each possibility `x` as ratio(a := x, b := word). -/
def get_close_matches (word : Str) (possibilities : List Str) (n tn td : Nat) :
    List Str :=
  let scored := possibilities.filterMap (fun x =>
    if cutoffLeRatio tn td (ratioFrac x word) then some (ratioFrac x word, x) else none)
  ((sortDesc scoredLt scored).take n).map (fun p => p.2)

/-- app.py get_all_searchable_terms: lowercase categories, cities, business
names and long-enough first name words currently in the store, deduplicated
(Python builds a set; the claims below do not depend on set order). -/
def get_all_searchable_terms (store : Store) : List Str :=
  let categories := ((store.map (fun r => r.category)).filter (fun c => !c.isEmpty)).map lowerStr
  let cities := ((store.map (fun r => r.city)).filter (fun c => !c.isEmpty)).map lowerStr
  let names := store.foldr (fun r acc =>
    if r.name.isEmpty then acc
    else
      lowerStr r.name ::
        (let fw := match splitWs (lowerStr r.name) with
                   | [] => lowerStr r.name
                   | w :: _ => w
         if 2 < fw.length then fw :: acc else acc)) []
  (categories ++ cities ++ names).dedup

/-- Python `query and query[0].isupper()`. -/
def isUpperFirst : Str → Bool
  | [] => false
  | c :: _ => c.isUpper

/-- app.py correct_spelling(query, threshold): returns (corrected_query,
was_corrected, suggestions) following the source's precedence: empty corpus,
exact membership, substring either way, a correct sub-word, whole-query
close match, per-word close matches, otherwise unchanged. -/
def correct_spelling (query : Str) (store : Store) (tn td : Nat) :
    Str × Bool × List Str :=
  let query_lower := lowerStr (trimStr query)
  let all_terms := get_all_searchable_terms store
  if all_terms = [] then (query, false, [])
  else if query_lower ∈ all_terms then (query, false, [])
  else if all_terms.any (fun t => containsStr t query_lower || containsStr query_lower t) then
    (query, false, [])
  else if (splitWs query_lower).any
      (fun w => decide (3 ≤ w.length) && decide (w ∈ all_terms)) then
    (query, false, [])
  else
    match get_close_matches query_lower all_terms 3 tn td with
    | m :: ms =>
      ((if isUpperFirst query then titleStr m else m), true, m :: ms)
    | [] =>
      let words := splitWs query_lower
      if 1 < words.length then
        let cw := words.map (fun w =>
          if w.length < 3 then (w, false)
          else if all_terms.any (fun t => containsStr t w) then (w, false)
          else match get_close_matches w all_terms 1 tn td with
               | m :: _ => (m, true)
               | [] => (w, false))
        if cw.any (fun p => p.2) then
          ((if isUpperFirst query then titleStr (joinSpace (cw.map (fun p => p.1)))
            else joinSpace (cw.map (fun p => p.1))), true,
           [if isUpperFirst query then titleStr (joinSpace (cw.map (fun p => p.1)))
            else joinSpace (cw.map (fun p => p.1))])
        else (query, false, [])
      else (query, false, [])

/-- Sample row with category "restaurant" for the C7 witness corpus. -/
def sampleL4 : Listing :=
  ⟨4, 4, ("tasty bites".toList), ("4 main st".toList), [], ("5551234".toList), 2, none,
   ("restaurant".toList), [], ("pune".toList), [], [], ("2024-01-04 00:00:00".toList)⟩

/-- app.py parse_search_query stop-word list, in source order. -/
def STOP_WORDS : List Str :=
  [("best".toList), ("top".toList), ("near".toList), ("me".toList), ("in".toList),
   ("the".toList), ("a".toList), ("an".toList), ("find".toList), ("search".toList),
   ("for".toList), ("looking".toList), ("need".toList), ("want".toList),
   ("good".toList), ("great".toList)]

/-- One iteration of the stop-word loop in parse_search_query: replace the
space-bounded occurrences, then strip a leading and a trailing occurrence. -/
def stripStopWord (q word : Str) : Str :=
  let q1 := replaceAll q ((' ' :: word) ++ [' ']) ([' '])
  let q2 := if startsWithStr q1 (word ++ [' ']) then q1.drop (word.length + 1) else q1
  if endsWithStr q2 (' ' :: word) then q2.take (q2.length - (word.length + 1)) else q2

/-- app.py parse_search_query: lowercase/trim, remove stop words, collapse
whitespace; one word is the keyword, otherwise the last word is the location
and the preceding words joined are the keyword. -/
def parse_search_query (user_query : Str) : Str × Str :=
  let q0 := STOP_WORDS.foldl stripStopWord (lowerStr (trimStr user_query))
  let words := splitWs (joinSpace (splitWs q0))
  match words with
  | [] => ([], [])
  | [w] => (w, [])
  | w :: ws =>
    (trimStr (joinSpace ((w :: ws).dropLast)), trimStr ((w :: ws).getLastD []))

/-- Strict order on nullable ratings with SQL semantics: NULL sorts below
every value, so DESC puts NULLs last. -/
def optRatLt : Option ℚ → Option ℚ → Bool
  | none, none => false
  | none, some _ => true
  | some _, none => false
  | some x, some y => decide (x < y)

/-- The ORDER BY reviews_average DESC, reviews_count DESC sort key of the
search queries, as a strict lexicographic comparison. -/
def ratingLt (a b : Listing) : Bool :=
  optRatLt a.reviews_average b.reviews_average ||
  (decide (a.reviews_average = b.reviews_average) &&
   decide (a.reviews_count < b.reviews_count))

/-- Nullable rating viewed in `WithBot ℚ` for order reasoning. -/
def ratKey : Option ℚ → WithBot ℚ
  | none => ⊥
  | some x => (x : WithBot ℚ)

/-- The ORDER BY … LIMIT 5 shape shared by all four search tiers. -/
def orderLimit5 (rows : List Listing) : List Listing := (sortDesc ratingLt rows).take 5

/-- SQL LOWER(field) LIKE LOWER(pattern) with a %pattern% wildcard:
case-insensitive substring containment. -/
def likeCI (field pat : Str) : Bool := containsStr (lowerStr field) (lowerStr pat)

/-- Tier A of smart_search_business: keyword against name/category/subcategory
AND location against city/address. -/
def tierA (store : Store) (kw loc : Str) : List Listing :=
  orderLimit5 (store.filter (fun r =>
    (likeCI r.name kw || likeCI r.category kw || likeCI r.subcategory kw) &&
    (likeCI r.city loc || likeCI r.address loc)))

/-- Tier B: keyword only, against name/category/subcategory. -/
def tierB (store : Store) (kw : Str) : List Listing :=
  orderLimit5 (store.filter (fun r =>
    likeCI r.name kw || likeCI r.category kw || likeCI r.subcategory kw))

/-- Tier C: location only, against city/address. -/
def tierC (store : Store) (loc : Str) : List Listing :=
  orderLimit5 (store.filter (fun r => likeCI r.city loc || likeCI r.address loc))

/-- Tier D: the raw original query against name/category/city. -/
def tierD (store : Store) (q : Str) : List Listing :=
  orderLimit5 (store.filter (fun r =>
    likeCI r.name q || likeCI r.category q || likeCI r.city q))

/-- Parsing plus independent spelling correction of keyword and location, as
done at the top of smart_search_business (threshold 0.6 = 3/5). -/
def correctedKeyLoc (user_query : Str) (useSp : Bool) (store : Store) :
    Str × Str × Bool :=
  let kl := parse_search_query user_query
  let kc := if useSp && !kl.1.isEmpty then correct_spelling kl.1 store 3 5
            else (kl.1, false, [])
  let lc := if useSp && !kl.2.isEmpty then correct_spelling kl.2 store 3 5
            else (kl.2, false, [])
  ((if kc.2.1 then kc.1 else kl.1), (if lc.2.1 then lc.1 else kl.2), kc.2.1 || lc.2.1)

/-- app.py smart_search_business: parse and correct the query, then run the
four-tier cascade, each tier guarded on the previous results being empty. -/
def smart_search_business (user_query : Str) (useSp : Bool) (store : Store) :
    List Listing × Str × Str × Bool :=
  let ckl := correctedKeyLoc user_query useSp store
  let ck := ckl.1
  let cl := ckl.2.1
  let results1 := if (!ck.isEmpty) && (!cl.isEmpty) then tierA store ck cl else []
  let results2 := if results1.isEmpty && !ck.isEmpty then tierB store ck else results1
  let results3 := if results2.isEmpty && !cl.isEmpty then tierC store cl else results2
  let results4 := if results3.isEmpty then tierD store user_query else results3
  (results4, ck, cl, ckl.2.2)

/-- First non-empty list of a sequence of candidate result sets. -/
def firstNonEmptyL : List (List Listing) → List Listing
  | [] => []
  | l :: ls => if l.isEmpty then firstNonEmptyL ls else l

/-- Modelled from the claim wording (spec §4.6): the four tiers are evaluated
in the fixed order A (only when both corrected keyword and corrected location
are non-empty), B (keyword non-empty), C (location non-empty), D (raw
original query); the first non-empty tier's results win, else empty. -/
def resolveTiersSpec (store : Store) (user_query : Str) : List Listing :=
  let ckl := correctedKeyLoc user_query true store
  firstNonEmptyL
    [if (!ckl.1.isEmpty) && (!ckl.2.1.isEmpty) then tierA store ckl.1 ckl.2.1 else [],
     if !ckl.1.isEmpty then tierB store ckl.1 else [],
     if !ckl.2.1.isEmpty then tierC store ckl.2.1 else [],
     tierD store user_query]

/-- A pizza-category listing located in delhi (not mumbai). -/
def pizzaL : Listing :=
  ⟨1, 1, ("dominos".toList), ("mg road".toList), [], ("111222333".toList), 10, none,
   ("pizza".toList), [], ("delhi".toList), [], [], ("2024-01-01".toList)⟩

/-- app.py is_greeting phrase set ("what's up" spelled with an apostrophe
character). -/
def GREETINGS : List Str :=
  [("hi".toList), ("hello".toList), ("hey".toList), ("good morning".toList),
   ("good afternoon".toList), ("good evening".toList), ("howdy".toList),
   ("hola".toList), ("greetings".toList), ("sup".toList),
   (("what".toList) ++ [Char.ofNat 39] ++ ("s up".toList)),
   ("yo".toList), ("namaste".toList)]

/-- app.py is_greeting: the lowercased trimmed text contains a greeting. -/
def is_greeting (text : Str) : Bool :=
  GREETINGS.any (fun g => containsStr (lowerStr (trimStr text)) g)

/-- app.py detect_intent search phrase set, in source order. -/
def SEARCH_KEYWORDS : List Str :=
  [("search for".toList), ("find a".toList), ("looking for".toList),
   ("need a".toList), ("want a".toList), ("search".toList), ("find".toList),
   ("looking".toList), ("recommend".toList), ("suggest".toList),
   ("near me".toList), ("best".toList), ("top".toList),
   ("where can i find".toList)]

/-- app.py detect_intent show phrase set. -/
def SHOW_KEYWORDS : List Str :=
  [("show my business".toList), ("view my business".toList),
   ("display business".toList), ("get my business".toList),
   ("my business details".toList), ("business info".toList)]

/-- app.py detect_intent update phrase set. -/
def UPDATE_KEYWORDS : List Str :=
  [("update my business".toList), ("edit details".toList),
   ("change my business".toList), ("modify business".toList),
   ("update business".toList), ("edit business".toList),
   ("change details".toList), ("update details".toList),
   ("edit my business".toList), ("modify my business".toList),
   ("fix my business".toList), ("correct details".toList)]

/-- app.py detect_intent add phrase set. -/
def ADD_KEYWORDS : List Str :=
  [("add business".toList), ("register my business".toList),
   ("create business".toList), ("new business".toList),
   ("add my business".toList), ("register business".toList),
   ("list my business".toList), ("add a business".toList),
   ("register a business".toList), ("add new business".toList),
   ("create new business".toList)]

/-- The six chatbot intents. -/
inductive Intent
  | greeting
  | search
  | show
  | update
  | add
  | general
deriving DecidableEq, Repr

/-- app.py detect_intent: first-match-wins cascade on the lowercased trimmed
text, in the priority order greeting, search, show, update, add, general. -/
def detect_intent (text : Str) : Intent :=
  let text_lower := lowerStr (trimStr text)
  if is_greeting text_lower then .greeting
  else if SEARCH_KEYWORDS.any (fun k => containsStr text_lower k) then .search
  else if SHOW_KEYWORDS.any (fun k => containsStr text_lower k) then .show
  else if UPDATE_KEYWORDS.any (fun k => containsStr text_lower k) then .update
  else if ADD_KEYWORDS.any (fun k => containsStr text_lower k) then .add
  else .general

/-- Dictionary write on the chat_data mapping (Python dict assignment). -/
def dset (k v : Str) (d : List (Str × Str)) : List (Str × Str) :=
  if d.any (fun p => p.1 == k) then d.map (fun p => if p.1 == k then (k, v) else p)
  else d ++ [(k, v)]

/-- Dictionary read (Python dict.get, None when absent). -/
def dget (d : List (Str × Str)) (k : Str) : Option Str :=
  (d.find? (fun p => p.1 == k)).map (fun p => p.2)

/-- Dictionary read with empty-string default (Python dict.get(k, "")). -/
def dgetD (d : List (Str × Str)) (k : Str) : Str := (dget d k).getD []

/-- The chatbot conversation modes (st.session_state.chat_mode; `none` is
Python None). -/
inductive ChatMode
  | none
  | show
  | update
  | add
  | search
deriving DecidableEq, Repr

/-- The per-session conversation state owned by the flow engine:
chat_mode, chat_step, chat_data and current_business. -/
structure ChatState where
  mode : ChatMode
  step : Nat
  data : List (Str × Str)
  current_business : Option Listing
deriving DecidableEq, Repr

/-- app.py reset_chat_flow: mode None, step 0, empty data, no current
business. -/
def reset_chat_flow : ChatState := ⟨ChatMode.none, 0, [], Option.none⟩

/-- A result row returned by the external search collaborator. -/
structure OnlineResult where
  title : Str
  address : Str
  phone : Str
  rating : Option ℚ
  reviews : Int
  category : Str
deriving DecidableEq, Repr

/-- The chatbot's response templates; each constructor is one message shape
of app.py with the values the template interpolates.  `Option.none` from a
handler corresponds to the Python `return None` (defer to the fallback). -/
inductive Resp
  | greeting
  | cancelled
  | startShow
  | startUpdate
  | startAdd
  | sdResults (keyword location : Str) (wasCorrected : Bool) (results : List Listing)
  | sdOnline (query keyword location : Str) (ranked : List OnlineResult)
  | sdNone (query : Str)
  | sdError (query : Str)
  | sdAskWhat (categories : List Str)
  | shInvalidPhone
  | shNotFound (phone : Str)
  | shFound (biz : Listing)
  | updInvalidPhone
  | updNotFound (phone : Str)
  | updMenu (biz : Listing)
  | updDone (biz : Option Listing)
  | updUnknownField
  | updFieldPrompt (field current : Str)
  | updEmptyValue
  | updNoField
  | updSuccess (field newValue : Str) (biz : Option Listing)
  | updFailed (field : Str)
  | addInvalidName
  | addAskPhone (name : Str)
  | addInvalidPhone
  | addAskAddress (phone : Str)
  | addInvalidAddress
  | addAskWebsite (address : Str)
  | addAskCategory
  | addInvalidCategory
  | addAskCity (category : Str)
  | addAskState
  | addSuccess (newId : Int) (data : List (Str × Str))
  | addFailed
  | srchTooShort
  | srchResults (keyword location : Str) (wasCorrected : Bool) (results : List Listing)
  | srchOnline (query keyword location : Str) (ranked : List OnlineResult)
  | srchNone (query : Str) (suggestions : List Str)
  | srchError (query : Str)
deriving DecidableEq, Repr

/-- business/business_add.py add_business: idempotency check on lowercased
name/address/area/city/state plus normalized phone (first matching row's id
is returned without inserting), otherwise insert a fresh row (new rowid =
1 + the maximum rowid, SQLite style; the source's lastrowid-zero fallback is
unreachable since the new rowid is always positive).  `now` is the
datetime.utcnow timestamp at call time; `owner_email` only affects which
INSERT column list is used and no modelled column. -/
def add_business (store : Store)
    (name address phone_number website category subcategory city state area : Str)
    (owner_email : Option Str) (now : Str) : Option Int × Store :=
  let normalized := if phone_number ≠ [] then normalize_phone phone_number else []
  match store.find? (fun r =>
      lowerStr r.name == lowerStr name &&
      lowerStr r.address == lowerStr address &&
      lowerStr r.area == lowerStr area &&
      lowerStr r.city == lowerStr city &&
      lowerStr r.state == lowerStr state &&
      normalize_phone r.phone_number == normalized) with
  | some r => (some r.id, store)
  | Option.none =>
    let newId := (store.foldl (fun m r => max m r.rowid) 0) + 1
    (some newId,
     store ++ [⟨newId, newId, name, address, website, normalized, 0, Option.none,
                category, subcategory, city, state, area, now⟩])

/-- app.py handle_show_flow. -/
def handle_show_flow (input : Str) (st : ChatState) (store : Store) :
    ChatState × Store × Option Resp :=
  if st.step = 1 then
    let phone := trimStr input
    let normalized := normalize_phone phone
    if normalized = [] ∨ normalized.length < 6 then (st, store, some Resp.shInvalidPhone)
    else
      match get_businesses_by_phone phone store with
      | [] => (reset_chat_flow, store, some (Resp.shNotFound phone))
      | b :: _ =>
        (⟨ChatMode.none, 0, [], some b⟩, store, some (Resp.shFound b))
  else (st, store, Option.none)

/-- The update flow's step-2 terminator words (overlapping but distinct from
the universal cancel set). -/
def UPDATE_DONE_WORDS : List Str :=
  [("done".toList), ("finish".toList), ("exit".toList), ("no".toList), ("cancel".toList)]

/-- app.py handle_update_flow field_mapping.  Note that selector "3" maps to
the key "phone", while "phone" and "phone number" map to "phone_number", as
in the source. -/
def FIELD_MAPPING (fi : Str) : Option Str :=
  if fi = ("1".toList) then some ("name".toList)
  else if fi = ("name".toList) then some ("name".toList)
  else if fi = ("2".toList) then some ("address".toList)
  else if fi = ("address".toList) then some ("address".toList)
  else if fi = ("3".toList) then some ("phone".toList)
  else if fi = ("phone".toList) then some ("phone_number".toList)
  else if fi = ("phone number".toList) then some ("phone_number".toList)
  else if fi = ("4".toList) then some ("website".toList)
  else if fi = ("website".toList) then some ("website".toList)
  else if fi = ("5".toList) then some ("category".toList)
  else if fi = ("category".toList) then some ("category".toList)
  else if fi = ("6".toList) then some ("city".toList)
  else if fi = ("city".toList) then some ("city".toList)
  else if fi = ("7".toList) then some ("state".toList)
  else if fi = ("state".toList) then some ("state".toList)
  else Option.none

/-- Read a listing column by chat field key (Python biz.get(field_key);
unknown keys give the empty string, displayed as "Not set"). -/
def getFieldD (k : Str) (r : Listing) : Str :=
  if k = ("name".toList) then r.name
  else if k = ("address".toList) then r.address
  else if k = ("phone_number".toList) then r.phone_number
  else if k = ("website".toList) then r.website
  else if k = ("category".toList) then r.category
  else if k = ("city".toList) then r.city
  else if k = ("state".toList) then r.state
  else []

/-- The update write of handle_update_flow step 3: try update_business by the
current business id first, then fall back to the phone stored at step 1 (a
falsy — empty — stored phone skips the fallback). -/
def updAttempt (st : ChatState) (store : Store) (fk newv : Str) : Bool × Store :=
  let updates := some [(fk, some newv)]
  let bid := match st.current_business with
             | some b => some b.id
             | Option.none => Option.none
  let u1 := match bid with
            | some i => update_business store (some i) updates Option.none
            | Option.none => (false, store)
  if u1.1 then u1
  else match dget st.data ("phone".toList) with
       | some p => if p ≠ [] then update_business u1.2 Option.none updates (some p) else u1
       | Option.none => u1

/-- The current_business refresh after a successful step-3 update: re-fetch
by the stored phone; if the lookup returns anything, prefer the row with the
same id, else the first row; if it returns nothing, keep the stale value. -/
def updRefreshed (st : ChatState) (store2 : Store) : Option Listing :=
  let ubs := match dget st.data ("phone".toList) with
             | some p => if p ≠ [] then get_businesses_by_phone p store2 else []
             | Option.none => []
  let bid := match st.current_business with
             | some b => some b.id
             | Option.none => Option.none
  if ubs.isEmpty then st.current_business
  else match ubs.find? (fun b => decide (some b.id = bid)) with
       | some b => some b
       | Option.none => ubs.head?

/-- Step 3 of handle_update_flow: empty value re-prompts, a missing pending
field key aborts with a reset, otherwise the update is attempted; success
refreshes current_business and loops back to step 2, failure stays at
step 3. -/
def handle_update_step3 (input : Str) (st : ChatState) (store : Store) :
    ChatState × Store × Option Resp :=
  let new_value := trimStr input
  if new_value = [] then (st, store, some Resp.updEmptyValue)
  else
    match dget st.data ("update_field".toList) with
    | Option.none => (reset_chat_flow, store, some Resp.updNoField)
    | some fk =>
      let u2 := updAttempt st store fk new_value
      if u2.1 then
        (⟨st.mode, 2, st.data, updRefreshed st u2.2⟩, u2.2,
         some (Resp.updSuccess fk new_value (updRefreshed st u2.2)))
      else (st, u2.2, some (Resp.updFailed fk))

/-- app.py handle_update_flow.  Step 3 tries update_business by id first,
then by the phone stored at step 1; on success the business is re-fetched by
that phone and the flow loops back to step 2. -/
def handle_update_flow (input : Str) (st : ChatState) (store : Store) :
    ChatState × Store × Option Resp :=
  if st.step = 1 then
    let phone := trimStr input
    let normalized := normalize_phone phone
    if normalized = [] ∨ normalized.length < 6 then (st, store, some Resp.updInvalidPhone)
    else
      match get_businesses_by_phone phone store with
      | [] => (reset_chat_flow, store, some (Resp.updNotFound phone))
      | b :: _ =>
        (⟨st.mode, 2, dset ("phone".toList) phone st.data, some b⟩, store,
         some (Resp.updMenu b))
  else if st.step = 2 then
    let fi := lowerStr (trimStr input)
    if fi ∈ UPDATE_DONE_WORDS then
      (reset_chat_flow, store, some (Resp.updDone st.current_business))
    else
      match FIELD_MAPPING fi with
      | Option.none => (st, store, some Resp.updUnknownField)
      | some fk =>
        (⟨st.mode, 3, dset ("update_field".toList) fk st.data, st.current_business⟩, store,
         some (Resp.updFieldPrompt fk
           (match st.current_business with
            | some b => getFieldD fk b
            | Option.none => [])))
  else if st.step = 3 then handle_update_step3 input st store
  else (st, store, Option.none)

/-- The optional-field skip set of the add flow's website step. -/
def WEBSITE_SKIP : List Str :=
  [("skip".toList), ("none".toList), ("n/a".toList), ("-".toList), ([])]

/-- The (smaller) skip set of the add flow's city and state steps. -/
def CITY_SKIP : List Str := [("skip".toList), ("none".toList)]

/-- app.py handle_add_flow: strictly sequential steps 1-7; on step 7 the
accumulated data is submitted to add_business, and on success the fetched
current_business is immediately cleared again by reset_chat_flow. -/
def handle_add_flow (input : Str) (st : ChatState) (store : Store) (now : Str) :
    ChatState × Store × Option Resp :=
  if st.step = 1 then
    let name := trimStr input
    if name = [] ∨ name.length < 2 then (st, store, some Resp.addInvalidName)
    else (⟨st.mode, 2, dset ("name".toList) name st.data, st.current_business⟩, store,
          some (Resp.addAskPhone name))
  else if st.step = 2 then
    let phone := trimStr input
    let normalized := normalize_phone phone
    if normalized = [] ∨ normalized.length < 6 then (st, store, some Resp.addInvalidPhone)
    else (⟨st.mode, 3, dset ("phone_number".toList) normalized st.data, st.current_business⟩,
          store, some (Resp.addAskAddress normalized))
  else if st.step = 3 then
    let address := trimStr input
    if address = [] ∨ address.length < 5 then (st, store, some Resp.addInvalidAddress)
    else (⟨st.mode, 4, dset ("address".toList) address st.data, st.current_business⟩, store,
          some (Resp.addAskWebsite address))
  else if st.step = 4 then
    let website := trimStr input
    (⟨st.mode, 5,
      dset ("website".toList) (if lowerStr website ∈ WEBSITE_SKIP then [] else website) st.data,
      st.current_business⟩, store, some Resp.addAskCategory)
  else if st.step = 5 then
    let category := trimStr input
    if category = [] ∨ category.length < 2 then (st, store, some Resp.addInvalidCategory)
    else (⟨st.mode, 6, dset ("category".toList) category st.data, st.current_business⟩, store,
          some (Resp.addAskCity category))
  else if st.step = 6 then
    let city := trimStr input
    (⟨st.mode, 7,
      dset ("city".toList)
        (if city ≠ [] ∧ lowerStr city ∉ CITY_SKIP then city else []) st.data,
      st.current_business⟩, store, some Resp.addAskState)
  else if st.step = 7 then
    let state := trimStr input
    let data := dset ("state".toList)
      (if state ≠ [] ∧ lowerStr state ∉ CITY_SKIP then state else []) st.data
    let res := add_business store (dgetD data ("name".toList)) (dgetD data ("address".toList))
      (dgetD data ("phone_number".toList)) (dgetD data ("website".toList))
      (dgetD data ("category".toList)) [] (dgetD data ("city".toList))
      (dgetD data ("state".toList)) [] Option.none now
    match res.1 with
    | some nid => (reset_chat_flow, res.2, some (Resp.addSuccess nid data))
    | Option.none => (reset_chat_flow, res.2, some Resp.addFailed)
  else (st, store, Option.none)

/-- app.py handle_search_flow: a `none` answer from the online collaborator
models the Python call raising; every step-1 outcome other than a too-short
query resets the flow (the transient step-2 write never survives the call). -/
def handle_search_flow (input : Str) (st : ChatState) (store : Store)
    (online : Str → Option (List OnlineResult))
    (rank : List OnlineResult → List OnlineResult) :
    ChatState × Store × Option Resp :=
  if st.step = 1 then
    let query := trimStr input
    if query = [] ∨ query.length < 2 then (st, store, some Resp.srchTooShort)
    else
      let s := smart_search_business query true store
      if !s.1.isEmpty then
        (reset_chat_flow, store, some (Resp.srchResults s.2.1 s.2.2.1 s.2.2.2 s.1))
      else
        let oq := if s.2.1 ≠ [] ∧ s.2.2.1 ≠ [] then s.2.1 ++ (" in ".toList) ++ s.2.2.1
                  else if s.2.1 ≠ [] then s.2.1 else query
        match online oq with
        | Option.none => (reset_chat_flow, store, some (Resp.srchError query))
        | some ors =>
          if !ors.isEmpty then
            (reset_chat_flow, store, some (Resp.srchOnline query s.2.1 s.2.2.1 (rank ors)))
          else
            (reset_chat_flow, store,
             some (Resp.srchNone query (correct_spelling query store 3 5).2.2))
  else (st, store, Option.none)

/-- The universal cancel-word set of handle_active_flow. -/
def CANCEL_WORDS : List Str :=
  [("cancel".toList), ("exit".toList), ("quit".toList), ("stop".toList),
   ("nevermind".toList)]

/-- app.py handle_active_flow: the cancel check runs before any mode-specific
step logic, then dispatch on the active mode. -/
def handle_active_flow (input : Str) (st : ChatState) (store : Store)
    (online : Str → Option (List OnlineResult))
    (rank : List OnlineResult → List OnlineResult) (now : Str) :
    ChatState × Store × Option Resp :=
  if lowerStr (trimStr input) ∈ CANCEL_WORDS then
    (reset_chat_flow, store, some Resp.cancelled)
  else
    match st.mode with
    | ChatMode.show => handle_show_flow input st store
    | ChatMode.update => handle_update_flow input st store
    | ChatMode.add => handle_add_flow input st store now
    | ChatMode.search => handle_search_flow input st store online rank
    | ChatMode.none => (st, store, Option.none)

/-- The intent words stripped from a direct search utterance. -/
def REMOVE_WORDS : List Str :=
  [("search for".toList), ("find a".toList), ("looking for".toList),
   ("need a".toList), ("want a".toList), ("search".toList), ("find".toList),
   ("looking".toList), ("recommend".toList), ("suggest".toList),
   ("where can i find".toList), ("best".toList), ("top".toList),
   ("near me".toList)]

/-- app.py get_suggested_categories: distinct non-empty categories, first 15. -/
def get_suggested_categories (store : Store) : List Str :=
  (((store.map (fun r => r.category)).filter (fun c => !c.isEmpty)).dedup).take 15

/-- The direct-search branch of process_chatbot_response: strip the intent
words from the utterance, run the smart search, and fall back to the online
collaborator; no conversation state is written in any branch. -/
def processSearchDirect (input : Str) (st : ChatState) (store : Store)
    (online : Str → Option (List OnlineResult))
    (rank : List OnlineResult → List OnlineResult) :
    ChatState × Store × Option Resp :=
  let sq := trimStr (joinSpace (splitWs
    (REMOVE_WORDS.foldl (fun q w => replaceAll q w []) (lowerStr (trimStr input)))))
  if sq ≠ [] ∧ 2 ≤ sq.length then
    let s := smart_search_business sq true store
    if !s.1.isEmpty then (st, store, some (Resp.sdResults s.2.1 s.2.2.1 s.2.2.2 s.1))
    else
      let oq := if s.2.1 ≠ [] ∧ s.2.2.1 ≠ [] then s.2.1 ++ (" in ".toList) ++ s.2.2.1
                else if s.2.1 ≠ [] then s.2.1 else sq
      match online oq with
      | Option.none => (st, store, some (Resp.sdError sq))
      | some ors =>
        if !ors.isEmpty then
          (st, store, some (Resp.sdOnline sq s.2.1 s.2.2.1 (rank ors)))
        else (st, store, some (Resp.sdNone sq))
  else (st, store, some (Resp.sdAskWhat (get_suggested_categories store)))

/-- app.py process_chatbot_response: continue an active flow, otherwise
dispatch on the detected intent.  The direct-search branch leaves the
conversation state untouched. -/
def process_chatbot_response (input : Str) (st : ChatState) (store : Store)
    (online : Str → Option (List OnlineResult))
    (rank : List OnlineResult → List OnlineResult) (now : Str) :
    ChatState × Store × Option Resp :=
  if st.mode ≠ ChatMode.none then handle_active_flow input st store online rank now
  else
    match detect_intent input with
    | Intent.greeting => (st, store, some Resp.greeting)
    | Intent.show =>
      (⟨ChatMode.show, 1, st.data, st.current_business⟩, store, some Resp.startShow)
    | Intent.update =>
      (⟨ChatMode.update, 1, st.data, st.current_business⟩, store, some Resp.startUpdate)
    | Intent.add =>
      (⟨ChatMode.add, 1, st.data, st.current_business⟩, store, some Resp.startAdd)
    | Intent.search => processSearchDirect input st store online rank
    | Intent.general => (st, store, Option.none)

/-- The conversation-state invariant of the spec: idle mode implies a zeroed
step counter and empty accumulated data. -/
def ChatInv (s : ChatState) : Prop := s.mode = ChatMode.none → s.step = 0 ∧ s.data = []

/-- The conversation states reachable from the initial idle state by any
sequence of user utterances, over any store contents and any behaviour of
the online collaborators. -/
inductive ReachableChat : ChatState → Prop
  | init : ReachableChat ⟨ChatMode.none, 0, [], Option.none⟩
  | step : ∀ (s : ChatState) (input : Str) (store : Store)
      (online : Str → Option (List OnlineResult))
      (rank : List OnlineResult → List OnlineResult) (now : Str),
      ReachableChat s →
      ReachableChat (process_chatbot_response input s store online rank now).1

/-- A complete add-flow session: the seven consecutive user turns after the
add intent started the flow at step 1, with the phone turn fixed to the
spec's example "98733 12399".  Returns the final state, store, response. -/
def addFlowRun (store : Store) (now : Str) (c0 : Option Listing)
    (iname iaddr iweb icat icity istate : Str) : ChatState × Store × Option Resp :=
  let r1 := handle_add_flow iname ⟨ChatMode.add, 1, [], c0⟩ store now
  let r2 := handle_add_flow ("98733 12399".toList) r1.1 r1.2.1 now
  let r3 := handle_add_flow iaddr r2.1 r2.2.1 now
  let r4 := handle_add_flow iweb r3.1 r3.2.1 now
  let r5 := handle_add_flow icat r4.1 r4.2.1 now
  let r6 := handle_add_flow icity r5.1 r5.2.1 now
  handle_add_flow istate r6.1 r6.2.1 now

/-- A stored listing with phone "123456" used to exercise the update flow. -/
def bizU : Listing :=
  ⟨7, 7, ("delta".toList), ("4 main st".toList), [], ("123456".toList), 0, none,
   ("cafe".toList), [], ("pune".toList), [], [], ("2024-01-04 00:00:00".toList)⟩

/-- Update-flow state at step 3 with pending field "website". -/
def stU : ChatState :=
  ⟨ChatMode.update, 3,
   [(("phone".toList), ("123456".toList)), (("update_field".toList), ("website".toList))],
   some bizU⟩

/-- Update-flow state at step 3 with pending field "phone_number". -/
def stUP : ChatState :=
  ⟨ChatMode.update, 3,
   [(("phone".toList), ("123456".toList)),
    (("update_field".toList), ("phone_number".toList))],
   some bizU⟩

theorem insertDesc_perm (lt : α → α → Bool) (x : α) :
    ∀ l : List α, List.Perm (insertDesc lt x l) (x :: l) := by
  intro l
  induction l with
  | nil => simp [insertDesc]
  | cons y ys ih =>
    simp only [insertDesc]
    split
    · exact ((ih.cons y).trans (List.Perm.swap x y ys))
    · exact List.Perm.refl _

theorem sortDesc_perm (lt : α → α → Bool) :
    ∀ l : List α, List.Perm (sortDesc lt l) l := by
  intro l
  induction l with
  | nil => simp [sortDesc]
  | cons x xs ih =>
    exact (insertDesc_perm lt x (sortDesc lt xs)).trans (ih.cons x)

theorem insertDesc_pairwise (lt : α → α → Bool)
    (hasym : ∀ a b, lt a b = true → lt b a = false)
    (hneg : ∀ a b c, lt a b = false → lt b c = false → lt a c = false)
    (x : α) :
    ∀ l : List α, l.Pairwise (fun a b => lt a b = false) →
      (insertDesc lt x l).Pairwise (fun a b => lt a b = false) := by
  intro l
  induction l with
  | nil => intro _; simp [insertDesc]
  | cons y ys ih =>
    intro hp
    rcases List.pairwise_cons.mp hp with ⟨hy, hys⟩
    simp only [insertDesc]
    split
    · rename_i hlt
      refine List.pairwise_cons.mpr ⟨?_, ih hys⟩
      intro z hz
      rcases List.mem_cons.mp ((List.Perm.mem_iff (insertDesc_perm lt x ys)).mp hz) with hzx | hzys
      · rw [hzx]; exact hasym x y hlt
      · exact hy z hzys
    · rename_i hnlt
      refine List.pairwise_cons.mpr ⟨?_, hp⟩
      intro z hz
      rcases List.mem_cons.mp hz with hzy | hzys
      · simpa [hzy] using (Bool.not_eq_true (lt x y)).mp hnlt
      · exact hneg x y z ((Bool.not_eq_true (lt x y)).mp hnlt) (hy z hzys)

theorem sortDesc_pairwise (lt : α → α → Bool)
    (hasym : ∀ a b, lt a b = true → lt b a = false)
    (hneg : ∀ a b c, lt a b = false → lt b c = false → lt a c = false) :
    ∀ l : List α, (sortDesc lt l).Pairwise (fun a b => lt a b = false) := by
  intro l
  induction l with
  | nil => simp [sortDesc]
  | cons x xs ih =>
    exact insertDesc_pairwise lt hasym hneg x (sortDesc lt xs) ih

theorem insertDesc_filter_not (lt : α → α → Bool) (p : α → Bool) (x : α)
    (hx : p x = false) :
    ∀ l : List α, (insertDesc lt x l).filter p = l.filter p := by
  intro l
  induction l with
  | nil => simp [insertDesc, List.filter, hx]
  | cons y ys ih =>
    simp only [insertDesc]
    split
    · simp only [List.filter]
      cases hpy : p y <;> simp [hpy, ih]
    · simp [List.filter, hx]

theorem insertDesc_filter_yes (lt : α → α → Bool) (p : α → Bool) (x : α)
    (hx : p x = true)
    (htie : ∀ a b, p a = true → p b = true → lt a b = false) :
    ∀ l : List α, (insertDesc lt x l).filter p = x :: l.filter p := by
  intro l
  induction l with
  | nil => simp [insertDesc, List.filter, hx]
  | cons y ys ih =>
    simp only [insertDesc]
    split
    · rename_i hlt
      have hpy : p y = false := by
        cases hpy : p y
        · rfl
        · exact absurd hlt (by simp [htie x y hx hpy])
      simp only [List.filter, hpy]
      exact ih
    · simp [List.filter, hx]

theorem sortDesc_filter_stable (lt : α → α → Bool) (p : α → Bool)
    (htie : ∀ a b, p a = true → p b = true → lt a b = false) :
    ∀ l : List α, (sortDesc lt l).filter p = l.filter p := by
  intro l
  induction l with
  | nil => simp [sortDesc]
  | cons x xs ih =>
    simp only [sortDesc, List.filter]
    cases hx : p x
    · rw [insertDesc_filter_not lt p x hx, ih]
    · rw [insertDesc_filter_yes lt p x hx htie, ih]

theorem strLtB_irrefl : ∀ a : Str, strLtB a a = false := by
  intro a
  induction a with
  | nil => rfl
  | cons x xs ih => simp [strLtB, ih]

theorem strLtB_asymm : ∀ a b : Str, strLtB a b = true → strLtB b a = false := by
  intro a
  induction a with
  | nil =>
    intro b h
    cases b with
    | nil => simp [strLtB] at h
    | cons y ys => simp [strLtB]
  | cons x xs ih =>
    intro b h
    cases b with
    | nil => simp [strLtB] at h
    | cons y ys =>
      simp only [strLtB] at h ⊢
      by_cases hxy : x < y
      · simp [hxy, lt_asymm hxy]
      · by_cases hyx : y < x
        · simp [hxy, hyx] at h
        · simp only [hxy, hyx, if_false] at h ⊢
          exact ih ys h

theorem strLtB_negtrans :
    ∀ a b c : Str, strLtB a b = false → strLtB b c = false → strLtB a c = false := by
  intro a
  induction a with
  | nil =>
    intro b c h1 h2
    cases b with
    | nil =>
      cases c with
      | nil => rfl
      | cons z zs => simp [strLtB] at h2
    | cons y ys => simp [strLtB] at h1
  | cons x xs ih =>
    intro b c h1 h2
    cases b with
    | nil =>
      cases c with
      | nil => simp [strLtB]
      | cons z zs => simp [strLtB] at h2
    | cons y ys =>
      cases c with
      | nil => simp [strLtB]
      | cons z zs =>
        simp only [strLtB] at h1 h2 ⊢
        by_cases hxy : x < y
        · simp [hxy] at h1
        · by_cases hyx : y < x
          · by_cases hyz : y < z
            · simp [hyz] at h2
            · have hzx : z < x := lt_of_le_of_lt (le_of_not_lt hyz) hyx
              simp [lt_asymm hzx, hzx]
          · have hxeqy : x = y := le_antisymm (le_of_not_lt hyx) (le_of_not_lt hxy)
            simp only [hxy, hyx, if_false] at h1
            by_cases hyz : y < z
            · simp [hyz] at h2
            · by_cases hzy : z < y
              · have hzx : z < x := hxeqy ▸ hzy
                simp [lt_asymm hzx, hzx]
              · have hyeqz : y = z := le_antisymm (le_of_not_lt hzy) (le_of_not_lt hyz)
                simp only [hyz, hzy, if_false] at h2
                have hxz : ¬ x < z := by rw [hxeqy, hyeqz]; exact lt_irrefl z
                have hzx : ¬ z < x := by rw [hxeqy, hyeqz]; exact lt_irrefl z
                simp only [hxz, hzx, if_false]
                exact ih ys zs h1 h2

theorem ubById_sound (store : Store) (bid : Option Int) :
    ∀ x ∈ ubById store bid, ∃ r ∈ store, r.rowid = x := by
  intro x hx
  cases bid with
  | none => simp [ubById] at hx
  | some b =>
    simp only [ubById] at hx
    cases hf1 : store.find? (fun r => r.id == b) with
    | some r =>
      rw [hf1] at hx
      rcases List.mem_singleton.mp hx with hxr
      exact ⟨r, List.mem_of_find?_eq_some hf1, hxr.symm⟩
    | none =>
      rw [hf1] at hx
      cases hf2 : store.find? (fun r => r.rowid == b) with
      | some r =>
        rw [hf2] at hx
        rcases List.mem_singleton.mp hx with hxr
        exact ⟨r, List.mem_of_find?_eq_some hf2, hxr.symm⟩
      | none => rw [hf2] at hx; simp at hx

theorem ubByPhone_sound (store : Store) (ph : Option Str) :
    ∀ x ∈ ubByPhone store ph, ∃ r ∈ store, r.rowid = x := by
  intro x hx
  cases ph with
  | none => simp [ubByPhone] at hx
  | some p =>
    simp only [ubByPhone] at hx
    by_cases hc : p ≠ [] ∧ normalize_phone p ≠ []
    · rw [if_pos hc] at hx
      rcases List.mem_map.mp hx with ⟨r, hr, hrx⟩
      exact ⟨r, List.mem_of_mem_filter hr, hrx⟩
    · rw [if_neg hc] at hx
      simp at hx

theorem ubMatching_sound (store : Store) (bid : Option Int) (ph : Option Str) :
    ∀ x ∈ ubMatching store bid ph, ∃ r ∈ store, r.rowid = x := by
  intro x hx
  unfold ubMatching at hx
  by_cases hb : ubById store bid = []
  · rw [if_pos hb] at hx
    exact ubByPhone_sound store ph x hx
  · rw [if_neg hb] at hx
    exact ubById_sound store bid x hx

theorem update_business_false_store (store : Store) (bid : Option Int)
    (updates : Option (List (Str × Option Str))) (ph : Option Str)
    (h : (update_business store bid updates ph).1 = false) :
    (update_business store bid updates ph).2 = store := by
  cases updates with
  | none => rfl
  | some ups =>
    simp only [update_business] at h ⊢
    by_cases h1 : ups = []
    · simp [h1]
    · rw [if_neg h1] at h ⊢
      by_cases h2 : filterUpdates ups = []
      · simp [h2]
      · rw [if_neg h2] at h ⊢
        by_cases h3 : ubMatching store bid ph = []
        · simp [h3]
        · rw [if_neg h3] at h ⊢
          exfalso
          rcases List.exists_mem_of_ne_nil _ h3 with ⟨x, hx⟩
          rcases ubMatching_sound store bid ph x hx with ⟨r, hrs, hrx⟩
          have hrf : r ∈ store.filter
              (fun r => decide (r.rowid ∈ ubMatching store bid ph)) := by
            refine List.mem_filter.mpr ⟨hrs, ?_⟩
            simp [hrx, hx]
          have hpos : 0 < (store.filter
              (fun r => decide (r.rowid ∈ ubMatching store bid ph))).length :=
            List.length_pos.mpr (List.ne_nil_of_mem hrf)
          simp only [Prod.fst] at h
          rw [decide_eq_false_iff_not] at h
          exact h hpos

/-- C6: for every query phone string with a non-empty digit-only projection,
the identity lookup returns exactly those stored listings whose stored phone
number has an equal digit-only projection (membership characterization and a
permutation of the filtered store — exact normalized equality, never
substring matching), ordered by created_at descending (pairwise no strictly
smaller timestamp precedes a larger one), with ties and missing timestamps
preserving the store order (for each fixed created_at value the returned
subsequence equals the filtered store's subsequence). -/
theorem get_businesses_by_phone_exact_ordered (phone : Str) (store : Store)
    (h : normalize_phone phone ≠ []) :
    (∀ r : Listing, r ∈ get_businesses_by_phone phone store ↔
        r ∈ store ∧ normalize_phone r.phone_number = normalize_phone phone) ∧
    List.Perm (get_businesses_by_phone phone store)
      (store.filter (fun r => normalize_phone r.phone_number == normalize_phone phone)) ∧
    (get_businesses_by_phone phone store).Pairwise (fun a b => createdLt a b = false) ∧
    ∀ c : Str,
      (get_businesses_by_phone phone store).filter (fun r => r.created_at == c) =
      (store.filter (fun r => normalize_phone r.phone_number == normalize_phone phone)).filter
        (fun r => r.created_at == c) := by
  have hunf : get_businesses_by_phone phone store =
      sortDesc createdLt
        (store.filter (fun r => normalize_phone r.phone_number == normalize_phone phone)) := by
    simp only [get_businesses_by_phone]
    rw [if_neg h]
  refine ⟨?_, ?_, ?_, ?_⟩
  · intro r
    rw [hunf, (sortDesc_perm createdLt _).mem_iff, List.mem_filter]
    simp only [beq_iff_eq]
  · rw [hunf]
    exact sortDesc_perm _ _
  · rw [hunf]
    exact sortDesc_pairwise createdLt
      (fun a b hab => strLtB_asymm _ _ hab)
      (fun a b c h1 h2 => strLtB_negtrans _ _ _ h1 h2) _
  · intro c
    rw [hunf]
    refine sortDesc_filter_stable createdLt _ ?_ _
    intro a b ha hb
    have ha' : a.created_at = c := by simpa using ha
    have hb' : b.created_at = c := by simpa using hb
    show strLtB a.created_at b.created_at = false
    rw [ha', hb']
    exact strLtB_irrefl c

/-- Witness for C6: concrete two-row store sharing the identity key
9873312399 under two different phone spellings. -/
theorem get_businesses_by_phone_exact_ordered_witness :
    (∀ r : Listing, r ∈ get_businesses_by_phone ("9873312399".toList) [sampleL1, sampleL2] ↔
        r ∈ [sampleL1, sampleL2] ∧
          normalize_phone r.phone_number = normalize_phone ("9873312399".toList)) ∧
    List.Perm (get_businesses_by_phone ("9873312399".toList) [sampleL1, sampleL2])
      ([sampleL1, sampleL2].filter
        (fun r => normalize_phone r.phone_number == normalize_phone ("9873312399".toList))) ∧
    (get_businesses_by_phone ("9873312399".toList) [sampleL1, sampleL2]).Pairwise
      (fun a b => createdLt a b = false) ∧
    ∀ c : Str,
      (get_businesses_by_phone ("9873312399".toList) [sampleL1, sampleL2]).filter
          (fun r => r.created_at == c) =
      ([sampleL1, sampleL2].filter
          (fun r => normalize_phone r.phone_number == normalize_phone ("9873312399".toList))).filter
        (fun r => r.created_at == c) :=
  get_businesses_by_phone_exact_ordered ("9873312399".toList) [sampleL1, sampleL2] (by decide)

/-- C9: a query whose digit-only projection is empty yields the empty result
for every store, and a stored listing whose own phone number normalizes to
the empty string is never returned by any identity lookup. -/
theorem lookup_requires_digits (phone : Str) (store : Store) (r : Listing) :
    (normalize_phone phone = [] → get_businesses_by_phone phone store = []) ∧
    (normalize_phone r.phone_number = [] → r ∉ get_businesses_by_phone phone store) := by
  constructor
  · intro h
    simp [get_businesses_by_phone, h]
  · intro hr hmem
    by_cases h : normalize_phone phone = []
    · simp [get_businesses_by_phone, h] at hmem
    · have hunf : get_businesses_by_phone phone store =
          sortDesc createdLt
            (store.filter (fun r => normalize_phone r.phone_number == normalize_phone phone)) := by
        simp only [get_businesses_by_phone]
        rw [if_neg h]
      rw [hunf, (sortDesc_perm createdLt _).mem_iff] at hmem
      have := (List.mem_filter.mp hmem).2
      rw [hr] at this
      exact h (by simpa using this.symm)

/-- Witness for C9: a symbols-only query returns nothing, and the
digit-free listing sampleL3 is not returned for a digit query. -/
theorem lookup_requires_digits_witness :
    get_businesses_by_phone ("  - () ".toList) [sampleL1, sampleL3] = [] ∧
    sampleL3 ∉ get_businesses_by_phone ("9873312399".toList) [sampleL1, sampleL3] :=
  ⟨(lookup_requires_digits ("  - () ".toList) [sampleL1, sampleL3] sampleL3).1 (by decide),
   (lookup_requires_digits ("9873312399".toList) [sampleL1, sampleL3] sampleL3).2 (by decide)⟩

/-- C10: whenever update_business reports failure (updates missing or empty,
no allow-listed key, or no record matched by id or normalized phone), the
listings store is left unchanged. -/
theorem update_business_failure_atomic (store : Store) (bid : Option Int)
    (updates : Option (List (Str × Option Str))) (ph : Option Str)
    (h : (update_business store bid updates ph).1 = false) :
    (update_business store bid updates ph).2 = store :=
  update_business_false_store store bid updates ph h

/-- Witness for C10: an update whose only key is not on the allow-list
fails and leaves the store unchanged. -/
theorem update_business_failure_atomic_witness :
    (update_business [sampleL1] (some 1)
        (some [(("bogus".toList), some ("x".toList))]) none).1 = false ∧
    (update_business [sampleL1] (some 1)
        (some [(("bogus".toList), some ("x".toList))]) none).2 = [sampleL1] :=
  ⟨by decide,
   update_business_failure_atomic [sampleL1] (some 1)
     (some [(("bogus".toList), some ("x".toList))]) none (by decide)⟩

/-- C7: for every token and every store with a non-empty derived corpus, if
the lowercased trimmed token is a substring of some corpus term or some
corpus term is a substring of the token, the spell corrector returns the
token unchanged, not corrected, with no suggestions. -/
theorem correct_spelling_substring_unchanged (query : Str) (store : Store)
    (tn td : Nat)
    (hne : get_all_searchable_terms store ≠ [])
    (hsub : ∃ t ∈ get_all_searchable_terms store,
        containsStr t (lowerStr (trimStr query)) = true ∨
        containsStr (lowerStr (trimStr query)) t = true) :
    correct_spelling query store tn td = (query, false, []) := by
  simp only [correct_spelling]
  rw [if_neg hne]
  by_cases hmem : lowerStr (trimStr query) ∈ get_all_searchable_terms store
  · rw [if_pos hmem]
  · rw [if_neg hmem]
    have hany : (get_all_searchable_terms store).any
        (fun t => containsStr t (lowerStr (trimStr query)) ||
          containsStr (lowerStr (trimStr query)) t) = true := by
      rcases hsub with ⟨t, ht, hc⟩
      refine List.any_eq_true.mpr ⟨t, ht, ?_⟩
      rcases hc with h | h <;> simp [h]
    rw [if_pos hany]

/-- Witness for C7: correct("rest") against a corpus containing
"restaurant" is returned unchanged with no correction and no suggestions. -/
theorem correct_spelling_substring_unchanged_witness :
    correct_spelling ("rest".toList) [sampleL4] 3 5 = (("rest".toList), false, []) :=
  correct_spelling_substring_unchanged ("rest".toList) [sampleL4] 3 5
    (by decide) (by decide)

theorem optRatLt_iff (a b : Option ℚ) : optRatLt a b = true ↔ ratKey a < ratKey b := by
  cases a <;> cases b <;> simp [optRatLt, ratKey]

theorem ratKey_inj (a b : Option ℚ) : ratKey a = ratKey b ↔ a = b := by
  cases a <;> cases b <;> simp [ratKey]

theorem ratingLt_iff (a b : Listing) :
    ratingLt a b = true ↔
      (ratKey a.reviews_average < ratKey b.reviews_average ∨
       (ratKey a.reviews_average = ratKey b.reviews_average ∧
        a.reviews_count < b.reviews_count)) := by
  unfold ratingLt
  simp [optRatLt_iff, ratKey_inj, Bool.or_eq_true, Bool.and_eq_true, decide_eq_true_eq]

theorem ratingLt_asymm (a b : Listing) (h : ratingLt a b = true) :
    ratingLt b a = false := by
  refine (Bool.not_eq_true _).mp ?_
  intro hba
  rw [ratingLt_iff] at h hba
  rcases h with h1 | ⟨he, hi⟩
  · rcases hba with h2 | ⟨he2, _⟩
    · exact absurd h2 (lt_asymm h1)
    · exact absurd h1 (by rw [he2]; exact lt_irrefl _)
  · rcases hba with h2 | ⟨he2, hi2⟩
    · exact absurd h2 (by rw [he]; exact lt_irrefl _)
    · omega

theorem ratingLt_negtrans (a b c : Listing) (h1 : ratingLt a b = false)
    (h2 : ratingLt b c = false) : ratingLt a c = false := by
  have n1 : ¬ (ratingLt a b = true) := by simp [h1]
  have n2 : ¬ (ratingLt b c = true) := by simp [h2]
  rw [ratingLt_iff] at n1 n2
  push_neg at n1 n2
  refine (Bool.not_eq_true _).mp ?_
  intro hac
  rw [ratingLt_iff] at hac
  have hba : ratKey b.reviews_average ≤ ratKey a.reviews_average := n1.1
  have hcb : ratKey c.reviews_average ≤ ratKey b.reviews_average := n2.1
  rcases hac with hlt | ⟨heq, hint⟩
  · exact absurd hlt (not_lt.mpr (le_trans hcb hba))
  · have hab : ratKey a.reviews_average = ratKey b.reviews_average :=
      le_antisymm (heq ▸ hcb) hba
    have hbc : ratKey b.reviews_average = ratKey c.reviews_average :=
      le_antisymm (hab ▸ heq.le) hcb
    have i1 := n1.2 hab
    have i2 := n2.2 hbc
    omega

theorem cascade_firstNonEmpty (a b c d : List Listing) (gk gl : Bool) :
    (let r1 := if gk && gl then a else []
     let r2 := if r1.isEmpty && gk then b else r1
     let r3 := if r2.isEmpty && gl then c else r2
     if r3.isEmpty then d else r3) =
    firstNonEmptyL [if gk && gl then a else [], if gk then b else [],
      if gl then c else [], d] := by
  cases gk <;> cases gl <;>
    by_cases ha : a.isEmpty <;> by_cases hb : b.isEmpty <;> by_cases hc : c.isEmpty <;>
      by_cases hd : d.isEmpty <;> simp_all [firstNonEmptyL]

theorem orderLimit5_spec (rows : List Listing) :
    (orderLimit5 rows).length ≤ 5 ∧
    (orderLimit5 rows).Pairwise (fun a b => ratingLt a b = false) := by
  constructor
  · unfold orderLimit5
    rw [List.length_take]
    exact min_le_left _ _
  · exact List.Pairwise.sublist (List.take_sublist 5 _)
      (sortDesc_pairwise ratingLt ratingLt_asymm ratingLt_negtrans rows)

set_option maxRecDepth 100000 in
/-- C1: the search resolver evaluates Tier A (keyword AND location, only when
both corrected parts are non-empty), Tier B (keyword only), Tier C (location
only), Tier D (raw query) in that fixed order and returns the first non-empty
tier's results; every tier is limited to 5 rows ordered by reviews_average
descending then reviews_count descending; and resolving "pizza mumbai"
against a store holding a pizza-category listing in a different city returns
that listing via Tier B while Tier A is empty. -/
theorem smart_search_tiered_resolution :
    (∀ (store : Store) (q : Str),
        (smart_search_business q true store).1 = resolveTiersSpec store q) ∧
    (∀ rows : List Listing, (orderLimit5 rows).length ≤ 5 ∧
        (orderLimit5 rows).Pairwise (fun a b => ratingLt a b = false)) ∧
    smart_search_business ("pizza mumbai".toList) true [pizzaL] =
      ([pizzaL], ("pizza".toList), ("mumbai".toList), false) ∧
    tierA [pizzaL] ("pizza".toList) ("mumbai".toList) = [] ∧
    tierB [pizzaL] ("pizza".toList) = [pizzaL] := by
  refine ⟨?_, ?_, ?_, ?_, ?_⟩
  · intro store q
    simp only [smart_search_business, resolveTiersSpec]
    exact cascade_firstNonEmpty _ _ _ _ _ _
  · intro rows
    exact orderLimit5_spec rows
  · decide
  · decide
  · decide

/-- C2: for every utterance whose lowercased trimmed text contains a search
phrase and contains no greeting phrase, the classifier returns search — even
when the text also contains show, update or add phrases, because the cascade
checks search before those categories. -/
theorem detect_intent_search_priority (text : Str)
    (hs : (SEARCH_KEYWORDS.any
        (fun k => containsStr (lowerStr (trimStr text)) k)) = true)
    (hg : is_greeting (lowerStr (trimStr text)) = false) :
    detect_intent text = Intent.search := by
  simp [detect_intent, hg, hs]

/-- Witness for C2: "search my business info" contains a search phrase, no
greeting phrase, and also a show phrase ("business info"), yet classifies as
search. -/
theorem detect_intent_search_priority_witness :
    (SEARCH_KEYWORDS.any
        (fun k => containsStr (lowerStr (trimStr ("search my business info".toList))) k)) = true ∧
    is_greeting (lowerStr (trimStr ("search my business info".toList))) = false ∧
    (SHOW_KEYWORDS.any
        (fun k => containsStr (lowerStr (trimStr ("search my business info".toList))) k)) = true ∧
    detect_intent ("search my business info".toList) = Intent.search :=
  ⟨by decide, by decide, by decide,
   detect_intent_search_priority ("search my business info".toList) (by decide) (by decide)⟩

/-- C5: in every active flow (mode show/update/add/search) and at every step,
an utterance whose trimmed lowercased form is one of the cancel words resets
the conversation state to mode none, step 0, empty data, and returns the
cancellation acknowledgment; the check runs before any mode-specific step
logic, so the result does not depend on the step or accumulated data. -/
theorem active_flow_cancel_resets (input : Str) (st : ChatState) (store : Store)
    (online : Str → Option (List OnlineResult))
    (rank : List OnlineResult → List OnlineResult) (now : Str)
    (hmode : st.mode ∈ [ChatMode.show, ChatMode.update, ChatMode.add, ChatMode.search])
    (hc : lowerStr (trimStr input) ∈ CANCEL_WORDS) :
    handle_active_flow input st store online rank now =
      (reset_chat_flow, store, some Resp.cancelled) ∧
    reset_chat_flow = ⟨ChatMode.none, 0, [], Option.none⟩ ∧
    process_chatbot_response input st store online rank now =
      (reset_chat_flow, store, some Resp.cancelled) := by
  have hne : st.mode ≠ ChatMode.none := by
    intro h
    rw [h] at hmode
    simp at hmode
  refine ⟨?_, rfl, ?_⟩
  · simp [handle_active_flow, hc]
  · simp [process_chatbot_response, hne, handle_active_flow, hc]

/-- Witness for C5: " CANCEL " (with case and spacing noise) at update step 3
with pending data resets the flow and acknowledges the cancellation. -/
theorem active_flow_cancel_resets_witness :
    handle_active_flow (" CANCEL ".toList)
        ⟨ChatMode.update, 3, [(("phone".toList), ("9873312399".toList))], some sampleL1⟩
        [sampleL1] (fun _ => some []) (fun x => x) ("2024-01-05".toList) =
      (reset_chat_flow, [sampleL1], some Resp.cancelled) ∧
    reset_chat_flow = ⟨ChatMode.none, 0, [], Option.none⟩ ∧
    process_chatbot_response (" CANCEL ".toList)
        ⟨ChatMode.update, 3, [(("phone".toList), ("9873312399".toList))], some sampleL1⟩
        [sampleL1] (fun _ => some []) (fun x => x) ("2024-01-05".toList) =
      (reset_chat_flow, [sampleL1], some Resp.cancelled) :=
  active_flow_cancel_resets (" CANCEL ".toList)
    ⟨ChatMode.update, 3, [(("phone".toList), ("9873312399".toList))], some sampleL1⟩
    [sampleL1] (fun _ => some []) (fun x => x) ("2024-01-05".toList)
    (by decide) (by decide)

theorem handle_show_flow_inv (input : Str) (st : ChatState) (store : Store)
    (hmode : st.mode ≠ ChatMode.none) :
    ChatInv (handle_show_flow input st store).1 := by
  simp only [ChatInv, handle_show_flow]
  repeat' split
  all_goals intro h
  all_goals first
    | exact ⟨rfl, rfl⟩
    | exact absurd h hmode

theorem handle_update_flow_inv (input : Str) (st : ChatState) (store : Store)
    (hmode : st.mode ≠ ChatMode.none) :
    ChatInv (handle_update_flow input st store).1 := by
  simp only [ChatInv, handle_update_flow, handle_update_step3]
  repeat' split
  all_goals intro h
  all_goals first
    | exact ⟨rfl, rfl⟩
    | exact absurd h hmode

theorem handle_add_flow_inv (input : Str) (st : ChatState) (store : Store) (now : Str)
    (hmode : st.mode ≠ ChatMode.none) :
    ChatInv (handle_add_flow input st store now).1 := by
  simp only [ChatInv, handle_add_flow]
  repeat' split
  all_goals intro h
  all_goals first
    | exact ⟨rfl, rfl⟩
    | exact absurd h hmode

theorem handle_search_flow_inv (input : Str) (st : ChatState) (store : Store)
    (online : Str → Option (List OnlineResult))
    (rank : List OnlineResult → List OnlineResult)
    (hmode : st.mode ≠ ChatMode.none) :
    ChatInv (handle_search_flow input st store online rank).1 := by
  simp only [ChatInv, handle_search_flow]
  repeat' split
  all_goals intro h
  all_goals first
    | exact ⟨rfl, rfl⟩
    | exact absurd h hmode

theorem handle_active_flow_inv (input : Str) (st : ChatState) (store : Store)
    (online : Str → Option (List OnlineResult))
    (rank : List OnlineResult → List OnlineResult) (now : Str)
    (hmode : st.mode ≠ ChatMode.none) :
    ChatInv (handle_active_flow input st store online rank now).1 := by
  unfold handle_active_flow
  split
  · intro _; exact ⟨rfl, rfl⟩
  · split
    · exact handle_show_flow_inv input st store hmode
    · exact handle_update_flow_inv input st store hmode
    · exact handle_add_flow_inv input st store now hmode
    · exact handle_search_flow_inv input st store online rank hmode
    · rename_i heq; exact absurd heq hmode

theorem processSearchDirect_state (input : Str) (st : ChatState) (store : Store)
    (online : Str → Option (List OnlineResult))
    (rank : List OnlineResult → List OnlineResult) :
    (processSearchDirect input st store online rank).1 = st := by
  simp only [processSearchDirect]
  repeat' split
  all_goals rfl

theorem process_chatbot_response_inv (input : Str) (st : ChatState) (store : Store)
    (online : Str → Option (List OnlineResult))
    (rank : List OnlineResult → List OnlineResult) (now : Str)
    (hinv : ChatInv st) :
    ChatInv (process_chatbot_response input st store online rank now).1 := by
  by_cases hm : st.mode = ChatMode.none
  · unfold process_chatbot_response
    rw [if_neg (not_not_intro hm)]
    split
    · exact hinv
    · intro h; exact ChatMode.noConfusion h
    · intro h; exact ChatMode.noConfusion h
    · intro h; exact ChatMode.noConfusion h
    · rw [ChatInv, processSearchDirect_state]
      exact hinv
    · exact hinv
  · unfold process_chatbot_response
    rw [if_pos hm]
    exact handle_active_flow_inv input st store online rank now hm

/-- C8: in every conversation state reachable from the initial state by any
sequence of user utterances, mode none implies step 0 and empty accumulated
data — every path back to the idle mode goes through the full reset. -/
theorem reachable_none_implies_reset (s : ChatState) (h : ReachableChat s) :
    s.mode = ChatMode.none → s.step = 0 ∧ s.data = [] := by
  induction h with
  | init => intro _; exact ⟨rfl, rfl⟩
  | step s input store online rank now hs ih =>
    exact process_chatbot_response_inv input s store online rank now ih

/-- Witness for C8: starting the update flow and cancelling it lands in a
reachable idle state with step 0 and cleared data. -/
theorem reachable_none_implies_reset_witness :
    (process_chatbot_response ("cancel".toList)
      (process_chatbot_response ("update my business".toList)
        ⟨ChatMode.none, 0, [], Option.none⟩ [] (fun _ => some []) (fun x => x) []).1
      [] (fun _ => some []) (fun x => x) []).1.step = 0 ∧
    (process_chatbot_response ("cancel".toList)
      (process_chatbot_response ("update my business".toList)
        ⟨ChatMode.none, 0, [], Option.none⟩ [] (fun _ => some []) (fun x => x) []).1
      [] (fun _ => some []) (fun x => x) []).1.data = [] :=
  reachable_none_implies_reset _
    (ReachableChat.step _ _ _ _ _ _ (ReachableChat.step _ _ _ _ _ _ ReachableChat.init))
    (by decide)

/-- Counterexample for C4 as stated: the claim's skip-value set
("skip","none","n/a","-","") is honoured only by the website step; the city
and state steps only map "skip"/"none"/"" to the empty string.  Entering
"n/a" for the city in an otherwise skip-valued add flow stores the literal
city "n/a", so the looked-up listing does not have city == "". -/
theorem add_flow_city_na_not_skipped :
    (get_businesses_by_phone ("9873312399".toList)
      (addFlowRun [] ("2024-06-01 00:00:00".toList) Option.none
        ("Joes Cafe".toList) ("12 Elm Street".toList) ("skip".toList)
        ("Cafe".toList) ("n/a".toList) ("skip".toList)).2.1).map (fun l => l.city) =
      [("n/a".toList)] ∧
    ("n/a".toList) ≠ ([] : Str) := by
  constructor
  · decide
  · decide

/-- C4 (amended): a completed add flow with a valid name, address and
category, the phone "98733 12399", a website input in the full skip-value
set ("skip","none","n/a","-",""), and city and state inputs in the skip set
the code actually applies to them ("skip","none" or empty), run against a
store with no listing whose phone normalizes to 9873312399, ends reset to
the idle state; a subsequent lookup by the identity key
normalize("9873312399") returns exactly one listing, whose phone_number is
the normalized "9873312399" and whose website, city and state are all the
empty string. -/
theorem add_flow_skip_roundtrip (store : Store) (now : Str) (c0 : Option Listing)
    (iname iaddr iweb icat icity istate : Str)
    (hname : 2 ≤ (trimStr iname).length)
    (haddr : 5 ≤ (trimStr iaddr).length)
    (hweb : lowerStr (trimStr iweb) ∈ WEBSITE_SKIP)
    (hcat : 2 ≤ (trimStr icat).length)
    (hcity : trimStr icity = [] ∨ lowerStr (trimStr icity) ∈ CITY_SKIP)
    (hstate : trimStr istate = [] ∨ lowerStr (trimStr istate) ∈ CITY_SKIP)
    (hstore : ∀ r ∈ store, normalize_phone r.phone_number ≠ ("9873312399".toList)) :
    (addFlowRun store now c0 iname iaddr iweb icat icity istate).1 = reset_chat_flow ∧
    ∃ l : Listing,
      get_businesses_by_phone ("9873312399".toList)
          (addFlowRun store now c0 iname iaddr iweb icat icity istate).2.1 = [l] ∧
      l.phone_number = ("9873312399".toList) ∧
      l.website = [] ∧ l.city = [] ∧ l.state = [] := by
  have h1 : ¬(trimStr iname = [] ∨ (trimStr iname).length < 2) := by
    rintro (h | h)
    · rw [h] at hname; simp at hname
    · omega
  have h3 : ¬(trimStr iaddr = [] ∨ (trimStr iaddr).length < 5) := by
    rintro (h | h)
    · rw [h] at haddr; simp at haddr
    · omega
  have h5 : ¬(trimStr icat = [] ∨ (trimStr icat).length < 2) := by
    rintro (h | h)
    · rw [h] at hcat; simp at hcat
    · omega
  have h6 : ¬(trimStr icity ≠ [] ∧ lowerStr (trimStr icity) ∉ CITY_SKIP) := by
    rcases hcity with h | h
    · intro hc; exact hc.1 h
    · intro hc; exact hc.2 h
  have h7 : ¬(trimStr istate ≠ [] ∧ lowerStr (trimStr istate) ∉ CITY_SKIP) := by
    rcases hstate with h | h
    · intro hc; exact hc.1 h
    · intro hc; exact hc.2 h
  have e1 : handle_add_flow iname ⟨ChatMode.add, 1, [], c0⟩ store now =
      (⟨ChatMode.add, 2, [(("name".toList), trimStr iname)], c0⟩, store,
       some (Resp.addAskPhone (trimStr iname))) := by
    simp [handle_add_flow, h1, dset]
  have e2 : handle_add_flow ("98733 12399".toList)
      ⟨ChatMode.add, 2, [(("name".toList), trimStr iname)], c0⟩ store now =
      (⟨ChatMode.add, 3,
        [(("name".toList), trimStr iname),
         (("phone_number".toList), ("9873312399".toList))], c0⟩, store,
       some (Resp.addAskAddress ("9873312399".toList))) := by
    rfl
  have e3 : handle_add_flow iaddr
      ⟨ChatMode.add, 3,
        [(("name".toList), trimStr iname),
         (("phone_number".toList), ("9873312399".toList))], c0⟩ store now =
      (⟨ChatMode.add, 4,
        [(("name".toList), trimStr iname),
         (("phone_number".toList), ("9873312399".toList)),
         (("address".toList), trimStr iaddr)], c0⟩, store,
       some (Resp.addAskWebsite (trimStr iaddr))) := by
    simp [handle_add_flow, h3, dset]
  have e4 : handle_add_flow iweb
      ⟨ChatMode.add, 4,
        [(("name".toList), trimStr iname),
         (("phone_number".toList), ("9873312399".toList)),
         (("address".toList), trimStr iaddr)], c0⟩ store now =
      (⟨ChatMode.add, 5,
        [(("name".toList), trimStr iname),
         (("phone_number".toList), ("9873312399".toList)),
         (("address".toList), trimStr iaddr),
         (("website".toList), [])], c0⟩, store, some Resp.addAskCategory) := by
    simp [handle_add_flow, hweb, dset]
  have e5 : handle_add_flow icat
      ⟨ChatMode.add, 5,
        [(("name".toList), trimStr iname),
         (("phone_number".toList), ("9873312399".toList)),
         (("address".toList), trimStr iaddr),
         (("website".toList), [])], c0⟩ store now =
      (⟨ChatMode.add, 6,
        [(("name".toList), trimStr iname),
         (("phone_number".toList), ("9873312399".toList)),
         (("address".toList), trimStr iaddr),
         (("website".toList), []),
         (("category".toList), trimStr icat)], c0⟩, store,
       some (Resp.addAskCity (trimStr icat))) := by
    simp [handle_add_flow, h5, dset]
  have e6 : handle_add_flow icity
      ⟨ChatMode.add, 6,
        [(("name".toList), trimStr iname),
         (("phone_number".toList), ("9873312399".toList)),
         (("address".toList), trimStr iaddr),
         (("website".toList), []),
         (("category".toList), trimStr icat)], c0⟩ store now =
      (⟨ChatMode.add, 7,
        [(("name".toList), trimStr iname),
         (("phone_number".toList), ("9873312399".toList)),
         (("address".toList), trimStr iaddr),
         (("website".toList), []),
         (("category".toList), trimStr icat),
         (("city".toList), [])], c0⟩, store, some Resp.addAskState) := by
    simp [handle_add_flow, h6, dset]
  have hfindX : store.find? (fun r =>
      lowerStr r.name == lowerStr (trimStr iname) &&
      lowerStr r.address == lowerStr (trimStr iaddr) &&
      lowerStr r.area == lowerStr [] &&
      lowerStr r.city == lowerStr [] &&
      lowerStr r.state == lowerStr [] &&
      normalize_phone r.phone_number ==
        (if ("9873312399".toList) ≠ ([] : Str) then normalize_phone ("9873312399".toList)
         else [])) = none := by
    rw [List.find?_eq_none]
    intro r hr hp
    simp only [Bool.and_eq_true, beq_iff_eq] at hp
    have hnn : (if ("9873312399".toList) ≠ ([] : Str)
        then normalize_phone ("9873312399".toList) else []) = ("9873312399".toList) := by
      decide
    rw [hnn] at hp
    exact hstore r hr (by tauto)
  have eadd : add_business store
      (dgetD (dset ("state".toList) []
        [(("name".toList), trimStr iname),
         (("phone_number".toList), ("9873312399".toList)),
         (("address".toList), trimStr iaddr),
         (("website".toList), []),
         (("category".toList), trimStr icat),
         (("city".toList), [])]) ("name".toList))
      (dgetD (dset ("state".toList) []
        [(("name".toList), trimStr iname),
         (("phone_number".toList), ("9873312399".toList)),
         (("address".toList), trimStr iaddr),
         (("website".toList), []),
         (("category".toList), trimStr icat),
         (("city".toList), [])]) ("address".toList))
      (dgetD (dset ("state".toList) []
        [(("name".toList), trimStr iname),
         (("phone_number".toList), ("9873312399".toList)),
         (("address".toList), trimStr iaddr),
         (("website".toList), []),
         (("category".toList), trimStr icat),
         (("city".toList), [])]) ("phone_number".toList))
      (dgetD (dset ("state".toList) []
        [(("name".toList), trimStr iname),
         (("phone_number".toList), ("9873312399".toList)),
         (("address".toList), trimStr iaddr),
         (("website".toList), []),
         (("category".toList), trimStr icat),
         (("city".toList), [])]) ("website".toList))
      (dgetD (dset ("state".toList) []
        [(("name".toList), trimStr iname),
         (("phone_number".toList), ("9873312399".toList)),
         (("address".toList), trimStr iaddr),
         (("website".toList), []),
         (("category".toList), trimStr icat),
         (("city".toList), [])]) ("category".toList))
      []
      (dgetD (dset ("state".toList) []
        [(("name".toList), trimStr iname),
         (("phone_number".toList), ("9873312399".toList)),
         (("address".toList), trimStr iaddr),
         (("website".toList), []),
         (("category".toList), trimStr icat),
         (("city".toList), [])]) ("city".toList))
      (dgetD (dset ("state".toList) []
        [(("name".toList), trimStr iname),
         (("phone_number".toList), ("9873312399".toList)),
         (("address".toList), trimStr iaddr),
         (("website".toList), []),
         (("category".toList), trimStr icat),
         (("city".toList), [])]) ("state".toList))
      [] Option.none now =
      (some ((store.foldl (fun m r => max m r.rowid) 0) + 1),
       store ++ [⟨(store.foldl (fun m r => max m r.rowid) 0) + 1,
                  (store.foldl (fun m r => max m r.rowid) 0) + 1,
                  trimStr iname, trimStr iaddr, [], ("9873312399".toList), 0, Option.none,
                  trimStr icat, [], [], [], [], now⟩]) := by
    show add_business store (trimStr iname) (trimStr iaddr) ("9873312399".toList) []
      (trimStr icat) [] [] [] [] Option.none now = _
    dsimp only [add_business]
    rw [hfindX]
    rfl
  have e7 : handle_add_flow istate
      ⟨ChatMode.add, 7,
        [(("name".toList), trimStr iname),
         (("phone_number".toList), ("9873312399".toList)),
         (("address".toList), trimStr iaddr),
         (("website".toList), []),
         (("category".toList), trimStr icat),
         (("city".toList), [])], c0⟩ store now =
      (reset_chat_flow,
       store ++ [⟨(store.foldl (fun m r => max m r.rowid) 0) + 1,
                  (store.foldl (fun m r => max m r.rowid) 0) + 1,
                  trimStr iname, trimStr iaddr, [], ("9873312399".toList), 0, Option.none,
                  trimStr icat, [], [], [], [], now⟩],
       some (Resp.addSuccess ((store.foldl (fun m r => max m r.rowid) 0) + 1)
         (dset ("state".toList) []
           [(("name".toList), trimStr iname),
            (("phone_number".toList), ("9873312399".toList)),
            (("address".toList), trimStr iaddr),
            (("website".toList), []),
            (("category".toList), trimStr icat),
            (("city".toList), [])]))) := by
    dsimp only [handle_add_flow]
    simp only []
    rw [if_neg h7, eadd]
    rfl
  have erun : addFlowRun store now c0 iname iaddr iweb icat icity istate =
      (reset_chat_flow,
       store ++ [⟨(store.foldl (fun m r => max m r.rowid) 0) + 1,
                  (store.foldl (fun m r => max m r.rowid) 0) + 1,
                  trimStr iname, trimStr iaddr, [], ("9873312399".toList), 0, Option.none,
                  trimStr icat, [], [], [], [], now⟩],
       some (Resp.addSuccess ((store.foldl (fun m r => max m r.rowid) 0) + 1)
         (dset ("state".toList) []
           [(("name".toList), trimStr iname),
            (("phone_number".toList), ("9873312399".toList)),
            (("address".toList), trimStr iaddr),
            (("website".toList), []),
            (("category".toList), trimStr icat),
            (("city".toList), [])]))) := by
    simp only [addFlowRun]
    rw [e1]
    dsimp only
    rw [e2]
    dsimp only
    rw [e3]
    dsimp only
    rw [e4]
    dsimp only
    rw [e5]
    dsimp only
    rw [e6]
    dsimp only
    rw [e7]
  refine ⟨by rw [erun], ?_⟩
  refine ⟨⟨(store.foldl (fun m r => max m r.rowid) 0) + 1,
    (store.foldl (fun m r => max m r.rowid) 0) + 1,
    trimStr iname, trimStr iaddr, [], ("9873312399".toList), 0, Option.none,
    trimStr icat, [], [], [], [], now⟩, ?_, rfl, rfl, rfl, rfl⟩
  rw [erun]
  have hnorm : normalize_phone ("9873312399".toList) = ("9873312399".toList) := rfl
  simp only [get_businesses_by_phone, hnorm]
  rw [if_neg (by decide : ¬("9873312399".toList = ([] : Str)))]
  rw [List.filter_append]
  have hfil : store.filter
      (fun r => normalize_phone r.phone_number == ("9873312399".toList)) = [] := by
    rw [List.filter_eq_nil_iff]
    intro r hr
    simp only [beq_iff_eq]
    exact hstore r hr
  rw [hfil]
  rfl

/-- Witness for C4 (amended): a fully concrete skip-valued add flow against
the empty store. -/
theorem add_flow_skip_roundtrip_witness :
    (addFlowRun [] ("2024-06-01 00:00:00".toList) Option.none ("Joes Cafe".toList)
        ("12 Elm Street".toList) ("N/A".toList) ("Cafe".toList) ("skip".toList)
        ("".toList)).1 = reset_chat_flow ∧
    ∃ l : Listing,
      get_businesses_by_phone ("9873312399".toList)
          (addFlowRun [] ("2024-06-01 00:00:00".toList) Option.none ("Joes Cafe".toList)
            ("12 Elm Street".toList) ("N/A".toList) ("Cafe".toList) ("skip".toList)
            ("".toList)).2.1 = [l] ∧
      l.phone_number = ("9873312399".toList) ∧
      l.website = [] ∧ l.city = [] ∧ l.state = [] :=
  add_flow_skip_roundtrip [] ("2024-06-01 00:00:00".toList) Option.none
    ("Joes Cafe".toList) ("12 Elm Street".toList) ("N/A".toList) ("Cafe".toList)
    ("skip".toList) ("".toList)
    (by decide) (by decide) (by decide) (by decide) (by decide) (by decide)
    (by intro r hr; simp at hr)

theorem dropLeadWs_head (s : Str) :
    dropLeadWs s = [] ∨
    ∃ c cs, dropLeadWs s = c :: cs ∧ c.isWhitespace = false := by
  induction s with
  | nil => exact Or.inl rfl
  | cons c cs ih =>
    by_cases h : c.isWhitespace
    · simpa [dropLeadWs, h] using ih
    · exact Or.inr ⟨c, cs, by simp [dropLeadWs, h], by simp [h]⟩

theorem dropLeadWs_idem (s : Str) : dropLeadWs (dropLeadWs s) = dropLeadWs s := by
  rcases dropLeadWs_head s with h | ⟨c, cs, h, hc⟩
  · rw [h]; rfl
  · rw [h]
    simp [dropLeadWs, hc]

theorem dropLeadWs_suffix (s : Str) : ∃ p, s = p ++ dropLeadWs s := by
  induction s with
  | nil => exact ⟨[], rfl⟩
  | cons c cs ih =>
    by_cases h : c.isWhitespace
    · rcases ih with ⟨p, hp⟩
      exact ⟨c :: p, by simp [dropLeadWs, h]; exact hp⟩
    · exact ⟨[], by simp [dropLeadWs, h]⟩

theorem trimStr_idem (s : Str) : trimStr (trimStr s) = trimStr s := by
  unfold trimStr
  have hclaim : dropLeadWs (List.reverse (dropLeadWs (List.reverse (dropLeadWs s)))) =
      List.reverse (dropLeadWs (List.reverse (dropLeadWs s))) := by
    cases hrt : List.reverse (dropLeadWs (List.reverse (dropLeadWs s))) with
    | nil => rfl
    | cons c rest =>
      have hcw : c.isWhitespace = false := by
        rcases dropLeadWs_suffix (List.reverse (dropLeadWs s)) with ⟨p, hp⟩
        have hurev : dropLeadWs s =
            List.reverse (dropLeadWs (List.reverse (dropLeadWs s))) ++ List.reverse p := by
          have := congrArg List.reverse hp
          simpa [List.reverse_append] using this
        rw [hrt] at hurev
        rcases dropLeadWs_head s with h0 | ⟨c0, cs0, h0, hc0⟩
        · rw [h0] at hurev
          exact absurd hurev.symm (by simp)
        · rw [h0] at hurev
          have hcc : c0 = c := by
            injection hurev with h1 h2
          rw [← hcc]
          exact hc0
      simp [dropLeadWs, hcw]
  rw [hclaim, List.reverse_reverse, dropLeadWs_idem]

theorem pairwise_key_unique {α : Type} {key : α → Int} (l : List α)
    (h : l.Pairwise (fun a b => key a ≠ key b)) :
    ∀ a ∈ l, ∀ b ∈ l, key a = key b → a = b := by
  induction l with
  | nil => intro a ha; exact absurd ha (List.not_mem_nil a)
  | cons x xs ih =>
    rcases List.pairwise_cons.mp h with ⟨hx, hxs⟩
    intro a ha b hb hab
    rcases List.mem_cons.mp ha with rfl | has
    · rcases List.mem_cons.mp hb with rfl | hbs
      · rfl
      · exact absurd hab (hx b hbs)
    · rcases List.mem_cons.mp hb with rfl | hbs
      · exact absurd hab.symm (hx a has)
      · exact ih hxs a has b hbs hab

theorem find?_eq_of_unique {α : Type} {p : α → Bool} (l : List α) (a : α)
    (ha : a ∈ l) (hpa : p a = true)
    (huniq : ∀ b ∈ l, p b = true → b = a) : l.find? p = some a := by
  induction l with
  | nil => exact absurd ha (List.not_mem_nil a)
  | cons x xs ih =>
    by_cases hx : p x = true
    · rw [List.find?_cons_of_pos _ hx]
      rw [huniq x (List.mem_cons_self x xs) hx]
    · rw [List.find?_cons_of_neg _ (by simp [hx])]
      rcases List.mem_cons.mp ha with hax | haxs
      · rw [← hax] at hx; exact absurd hpa hx
      · exact ih haxs (fun b hb hpb => huniq b (List.mem_cons_of_mem x hb) hpb)

theorem lookup_mem (q : Str) (s : Store) (hq : normalize_phone q ≠ []) (r : Listing) :
    r ∈ get_businesses_by_phone q s ↔
      r ∈ s ∧ normalize_phone r.phone_number = normalize_phone q := by
  have hunf : get_businesses_by_phone q s =
      sortDesc createdLt
        (s.filter (fun x => normalize_phone x.phone_number == normalize_phone q)) := by
    simp only [get_businesses_by_phone]
    rw [if_neg hq]
  rw [hunf, (sortDesc_perm createdLt _).mem_iff, List.mem_filter]
  simp only [beq_iff_eq]

theorem filterUpdates_single (fk v : Str)
    (hall : fk ∈ ALLOWED_FIELDS) (hnp : fk ≠ ("phone_number".toList)) :
    filterUpdates [(fk, some v)] = [(fk, trimStr v)] := by
  simp [filterUpdates, hall]
  intro h
  exact absurd h hnp

theorem applyField_six (fk v : Str) (r : Listing)
    (hmem : fk ∈ [("name".toList), ("address".toList), ("website".toList),
      ("category".toList), ("city".toList), ("state".toList)]) :
    (applyField fk v r).id = r.id ∧ (applyField fk v r).rowid = r.rowid ∧
    (applyField fk v r).phone_number = r.phone_number ∧
    getFieldD fk (applyField fk v r) = v := by
  simp only [List.mem_cons, List.mem_singleton, List.not_mem_nil, or_false] at hmem
  rcases hmem with rfl | rfl | rfl | rfl | rfl | rfl
  all_goals exact ⟨rfl, rfl, rfl, rfl⟩

theorem six_sub_allowed (fk : Str)
    (hmem : fk ∈ [("name".toList), ("address".toList), ("website".toList),
      ("category".toList), ("city".toList), ("state".toList)]) :
    fk ∈ ALLOWED_FIELDS ∧ fk ≠ ("phone_number".toList) := by
  simp only [List.mem_cons, List.mem_singleton, List.not_mem_nil, or_false] at hmem
  rcases hmem with rfl | rfl | rfl | rfl | rfl | rfl
  all_goals exact ⟨by decide, by decide⟩

theorem update_business_by_id (store : Store) (biz : Listing) (fk v : Str)
    (hbiz : biz ∈ store)
    (hids : store.Pairwise (fun a b => a.id ≠ b.id))
    (hall : fk ∈ ALLOWED_FIELDS) (hnp : fk ≠ ("phone_number".toList)) :
    update_business store (some biz.id) (some [(fk, some v)]) Option.none =
      (true, store.map (fun r =>
        if r.rowid = biz.rowid then applyField fk (trimStr v) r else r)) := by
  have hfind : store.find? (fun r => r.id == biz.id) = some biz := by
    refine find?_eq_of_unique store biz hbiz (by simp) ?_
    intro b hb hpb
    exact pairwise_key_unique store hids b hb biz hbiz (by simpa using hpb)
  have hby : ubById store (some biz.id) = [biz.rowid] := by
    simp only [ubById]
    rw [hfind]
  have hmat : ubMatching store (some biz.id) Option.none = [biz.rowid] := by
    simp [ubMatching, hby]
  simp only [update_business]
  rw [filterUpdates_single fk v hall hnp, hmat]
  rw [if_neg (List.cons_ne_nil _ _), if_neg (List.cons_ne_nil _ _),
    if_neg (List.cons_ne_nil _ _)]
  refine Prod.ext ?_ ?_
  · rw [decide_eq_true_eq]
    have hmemf : biz ∈ store.filter (fun r => decide (r.rowid ∈ [biz.rowid])) :=
      List.mem_filter.mpr ⟨hbiz, by simp⟩
    exact List.length_pos.mpr (List.ne_nil_of_mem hmemf)
  · apply List.map_congr_left
    intro r hr
    by_cases h : r.rowid = biz.rowid
    · simp [h, applyUpdates]
    · simp [h]

theorem updAttempt_id (st : ChatState) (store : Store) (biz : Listing) (fk v : Str)
    (hcur : st.current_business = some biz)
    (hbiz : biz ∈ store)
    (hids : store.Pairwise (fun a b => a.id ≠ b.id))
    (hall : fk ∈ ALLOWED_FIELDS) (hnp : fk ≠ ("phone_number".toList)) :
    updAttempt st store fk v =
      (true, store.map (fun r =>
        if r.rowid = biz.rowid then applyField fk (trimStr v) r else r)) := by
  simp only [updAttempt]
  rw [hcur]
  dsimp only
  rw [update_business_by_id store biz fk v hbiz hids hall hnp]
  rfl

theorem updRefreshed_newStore (st : ChatState) (store : Store) (biz : Listing)
    (fk tv ph : Str)
    (hcur : st.current_business = some biz)
    (hph : dget st.data ("phone".toList) = some ph)
    (hphn : normalize_phone ph ≠ [])
    (hmatch : normalize_phone biz.phone_number = normalize_phone ph)
    (hbiz : biz ∈ store)
    (hids : store.Pairwise (fun a b => a.id ≠ b.id))
    (hfkmem : fk ∈ [("name".toList), ("address".toList), ("website".toList),
      ("category".toList), ("city".toList), ("state".toList)]) :
    updRefreshed st (store.map (fun r =>
        if r.rowid = biz.rowid then applyField fk tv r else r)) =
      some (applyField fk tv biz) := by
  have hpne : ph ≠ [] := by
    intro h
    rw [h] at hphn
    exact hphn rfl
  have hpres := applyField_six fk tv biz hfkmem
  have hfb : (fun r => if r.rowid = biz.rowid then applyField fk tv r else r) biz =
      applyField fk tv biz := by simp
  have hmem2 : applyField fk tv biz ∈ store.map (fun r =>
      if r.rowid = biz.rowid then applyField fk tv r else r) := by
    rw [← hfb]
    exact List.mem_map_of_mem _ hbiz
  have hub : applyField fk tv biz ∈
      get_businesses_by_phone ph (store.map (fun r =>
        if r.rowid = biz.rowid then applyField fk tv r else r)) := by
    rw [lookup_mem ph _ hphn]
    exact ⟨hmem2, by rw [hpres.2.2.1, hmatch]⟩
  have hubne : (get_businesses_by_phone ph (store.map (fun r =>
      if r.rowid = biz.rowid then applyField fk tv r else r))).isEmpty = false := by
    rw [List.isEmpty_eq_false_iff_exists_mem]
    exact ⟨_, hub⟩
  have hfindub : (get_businesses_by_phone ph (store.map (fun r =>
      if r.rowid = biz.rowid then applyField fk tv r else r))).find?
        (fun b => decide (some b.id = some biz.id)) = some (applyField fk tv biz) := by
    refine find?_eq_of_unique _ _ hub (by simp [hpres.1]) ?_
    intro b hb hpb
    rw [decide_eq_true_eq, Option.some_inj] at hpb
    have hbmem := ((lookup_mem ph _ hphn b).mp hb).1
    rcases List.mem_map.mp hbmem with ⟨r, hr, hrb⟩
    have hrid : r.id = biz.id := by
      by_cases h : r.rowid = biz.rowid
      · have h2 : applyField fk tv r = b := by
          rw [← hrb]; simp [h]
        rw [← hpb, ← h2, (applyField_six fk tv r hfkmem).1]
      · have h2 : r = b := by
          rw [← hrb]; simp [h]
        rw [← hpb, ← h2]
    have hreq : r = biz := pairwise_key_unique store hids r hr biz hbiz hrid
    rw [← hrb, hreq]
    simp
  simp only [updRefreshed]
  rw [hph, hcur]
  simp only []
  rw [if_pos hpne]
  rw [hubne]
  rw [hfindub]
  rfl

theorem handle_update_step3_success (input : Str) (st : ChatState) (store : Store)
    (biz : Listing) (fk ph : Str)
    (hval : trimStr input ≠ [])
    (hfk : dget st.data ("update_field".toList) = some fk)
    (hfkmem : fk ∈ [("name".toList), ("address".toList), ("website".toList),
      ("category".toList), ("city".toList), ("state".toList)])
    (hcur : st.current_business = some biz)
    (hph : dget st.data ("phone".toList) = some ph)
    (hphn : normalize_phone ph ≠ [])
    (hmatch : normalize_phone biz.phone_number = normalize_phone ph)
    (hbiz : biz ∈ store)
    (hids : store.Pairwise (fun a b => a.id ≠ b.id)) :
    handle_update_step3 input st store =
      (⟨st.mode, 2, st.data, some (applyField fk (trimStr input) biz)⟩,
       store.map (fun r =>
         if r.rowid = biz.rowid then applyField fk (trimStr input) r else r),
       some (Resp.updSuccess fk (trimStr input)
         (some (applyField fk (trimStr input) biz)))) := by
  rcases six_sub_allowed fk hfkmem with ⟨hall, hnp⟩
  simp only [handle_update_step3]
  rw [if_neg hval, hfk]
  simp only []
  rw [updAttempt_id st store biz fk (trimStr input) hcur hbiz hids hall hnp]
  rw [trimStr_idem]
  simp only []
  rw [updRefreshed_newStore st store biz fk (trimStr input) ph hcur hph hphn hmatch hbiz
    hids hfkmem]
  rw [if_pos trivial]

theorem updAttempt_fail_store (st : ChatState) (store : Store) (fk v : Str)
    (h : (updAttempt st store fk v).1 = false) :
    (updAttempt st store fk v).2 = store := by
  simp only [updAttempt] at h ⊢
  cases hcb : st.current_business with
  | none =>
    rw [hcb] at h
    simp only [] at h ⊢
    rw [if_neg Bool.false_ne_true] at h ⊢
    cases hdg : dget st.data ("phone".toList) with
    | none => rfl
    | some p =>
      rw [hdg] at h
      simp only [] at h ⊢
      by_cases hp : p ≠ []
      · rw [if_pos hp] at h ⊢
        exact update_business_false_store _ _ _ _ h
      · rw [if_neg hp] at h ⊢
  | some b =>
    rw [hcb] at h
    simp only [] at h ⊢
    cases hu1 : (update_business store (some b.id) (some [(fk, some v)]) Option.none).1 with
    | true =>
      rw [if_pos hu1] at h
      rw [hu1] at h
      exact absurd h (by decide)
    | false =>
      have hne : ¬ ((update_business store (some b.id)
          (some [(fk, some v)]) Option.none).1 = true) := by
        rw [hu1]; decide
      rw [if_neg hne] at h
      rw [if_neg Bool.false_ne_true]
      have hst : (update_business store (some b.id)
          (some [(fk, some v)]) Option.none).2 = store :=
        update_business_false_store _ _ _ _ hu1
      cases hdg : dget st.data ("phone".toList) with
      | none => exact hst
      | some p =>
        rw [hdg] at h
        simp only [] at h ⊢
        by_cases hp : p ≠ []
        · rw [if_pos hp] at h ⊢
          rw [hst] at h ⊢
          exact update_business_false_store _ _ _ _ h
        · rw [if_neg hp] at h ⊢; exact hst

theorem handle_update_step3_fail (input : Str) (st : ChatState) (store : Store) (fk : Str)
    (hval : trimStr input ≠ [])
    (hfk : dget st.data ("update_field".toList) = some fk)
    (hfail : (updAttempt st store fk (trimStr input)).1 = false) :
    handle_update_step3 input st store = (st, store, some (Resp.updFailed fk)) := by
  simp only [handle_update_step3]
  rw [if_neg hval, hfk]
  simp only []
  rw [hfail, if_neg Bool.false_ne_true]
  rw [updAttempt_fail_store st store fk (trimStr input) hfail]

theorem handle_update_flow_step3 (input : Str) (st : ChatState) (store : Store)
    (hstep : st.step = 3) :
    handle_update_flow input st store = handle_update_step3 input st store := by
  simp only [handle_update_flow]
  rw [hstep]
  rfl

theorem handle_update_flow_done (input : Str) (st : ChatState) (store : Store)
    (hstep : st.step = 2)
    (hdone : lowerStr (trimStr input) ∈ UPDATE_DONE_WORDS) :
    handle_update_flow input st store =
      (reset_chat_flow, store, some (Resp.updDone st.current_business)) := by
  simp only [handle_update_flow]
  rw [hstep]
  rw [if_neg (by decide), if_pos rfl]
  rw [if_pos hdone]

/-- C3 (amended): at step 3 of the update flow with a non-empty value and a
pending field key: (a) for the six menu fields other than phone_number, when
the current business is a store row with a unique id whose phone normalizes
to the phone saved at step 1, the update succeeds, the flow loops back to
step 2 with mode still update, exactly that row is rewritten, and
current_business is refreshed from the updated store so the re-presented
menu shows the new value; (b) when both storage attempts fail the flow stays
at step 3 with the store unchanged, so the user can retry or exit; (c)
entering "done" at step 2 resets the state to mode none.  (For field
phone_number part (a) does not hold: the refresh looks the row up by the OLD
phone, finds nothing, and keeps the stale current_business.) -/
theorem update_flow_step3_transitions (input : Str) (st : ChatState)
    (store : Store) (fk : Str)
    (hmode : st.mode = ChatMode.update)
    (hstep : st.step = 3)
    (hval : trimStr input ≠ [])
    (hfk : dget st.data ("update_field".toList) = some fk) :
    (∀ (biz : Listing) (ph : Str),
      fk ∈ [("name".toList), ("address".toList), ("website".toList),
        ("category".toList), ("city".toList), ("state".toList)] →
      st.current_business = some biz →
      dget st.data ("phone".toList) = some ph →
      normalize_phone ph ≠ [] →
      normalize_phone biz.phone_number = normalize_phone ph →
      biz ∈ store →
      store.Pairwise (fun a b => a.id ≠ b.id) →
      handle_update_flow input st store =
        (⟨ChatMode.update, 2, st.data, some (applyField fk (trimStr input) biz)⟩,
         store.map (fun r =>
           if r.rowid = biz.rowid then applyField fk (trimStr input) r else r),
         some (Resp.updSuccess fk (trimStr input)
           (some (applyField fk (trimStr input) biz)))) ∧
      getFieldD fk (applyField fk (trimStr input) biz) = trimStr input) ∧
    ((updAttempt st store fk (trimStr input)).1 = false →
      handle_update_flow input st store = (st, store, some (Resp.updFailed fk))) ∧
    (∀ (input2 : Str) (st2 : ChatState) (store2 : Store),
      st2.step = 2 →
      lowerStr (trimStr input2) ∈ UPDATE_DONE_WORDS →
      handle_update_flow input2 st2 store2 =
        (reset_chat_flow, store2, some (Resp.updDone st2.current_business)) ∧
      reset_chat_flow.mode = ChatMode.none) := by
  refine ⟨?_, ?_, ?_⟩
  · intro biz ph hfkmem hcur hph hphn hmatch hbiz hids
    constructor
    · rw [handle_update_flow_step3 input st store hstep]
      rw [handle_update_step3_success input st store biz fk ph hval hfk hfkmem hcur hph
        hphn hmatch hbiz hids]
      rw [hmode]
    · exact (applyField_six fk (trimStr input) biz hfkmem).2.2.2
  · intro hfail
    rw [handle_update_flow_step3 input st store hstep]
    exact handle_update_step3_fail input st store fk hval hfk hfail
  · intro input2 st2 store2 hstep2 hdone
    exact ⟨handle_update_flow_done input2 st2 store2 hstep2 hdone, rfl⟩

/-- C3 counterexample: selecting field phone_number at step 2 and entering a
new number at step 3 succeeds and loops back to step 2, but the refresh
looks the business up by the phone saved at step 1 (the OLD number), finds
nothing in the rewritten store, and keeps the stale current_business: the
re-presented menu still shows the old phone_number, not the new value. -/
theorem update_flow_phone_menu_stale :
    handle_update_flow ("999888777".toList) stUP [bizU] =
      (⟨ChatMode.update, 2, stUP.data, some bizU⟩,
       [applyField ("phone_number".toList) ("999888777".toList) bizU],
       some (Resp.updSuccess ("phone_number".toList) ("999888777".toList) (some bizU))) ∧
    getFieldD ("phone_number".toList) bizU ≠ ("999888777".toList) := by
  decide

/-- Witness for C3: a concrete website update at step 3 rewrites the single
store row, returns to step 2 in update mode, and the refreshed menu shows
the new website value. -/
theorem update_flow_step3_transitions_witness :
    handle_update_flow ("newsite.com".toList) stU [bizU] =
      (⟨ChatMode.update, 2, stU.data,
        some (applyField ("website".toList) (trimStr ("newsite.com".toList)) bizU)⟩,
       [bizU].map (fun r => if r.rowid = bizU.rowid
         then applyField ("website".toList) (trimStr ("newsite.com".toList)) r else r),
       some (Resp.updSuccess ("website".toList) (trimStr ("newsite.com".toList))
         (some (applyField ("website".toList) (trimStr ("newsite.com".toList)) bizU)))) ∧
    getFieldD ("website".toList) (applyField ("website".toList)
      (trimStr ("newsite.com".toList)) bizU) = trimStr ("newsite.com".toList) :=
  (update_flow_step3_transitions ("newsite.com".toList) stU [bizU] ("website".toList)
    (by decide) (by decide) (by decide) (by decide)).1 bizU ("123456".toList)
    (by decide) rfl (by decide) (by decide) (by decide) (by decide) (by decide)
